import Mathlib

/-!
# Verification of the ITS_LIVE datacube generator (`itscube.py`, `itscube_types.py`)

Shallow embedding of the algorithmic core of `ITSCube`:

* granule deduplication (`ITSCube.skip_duplicate_granules`),
* per-granule normalization (`ITSCube.preprocess_dataset`),
* layer accumulation (`ITSCube.add_layer`, `ITSCube.clear_vars`, `ITSCube.clear`),
* batch assembly and store append (`ITSCube.combine_layers`, `ITSCube.get_data_var`,
  `ITSCube.get_data_var_attr`, `ITSCube.process_v_attributes`),
* the sequential and parallel drivers (`ITSCube.create`, `ITSCube.create_parallel`).

Modelling conventions:

* Dates (acquisition dates, processing dates, the middle date) are modelled as
  natural/integer timestamps; the Python code parses `datetime` objects from
  fixed filename tokens and compares them with `<=`/`>=`, which is order-isomorphic
  to the integer order used here.
* A granule URL is modelled by the tokens the code extracts from its basename
  (two acquisition dates, two path/rows, two processing dates) plus a `tag`
  standing for the remaining characters of the filename, so that equality of
  `Granule` values coincides with equality of URL strings.
* Python dicts preserve insertion order; they are modelled as association lists
  where a new key is appended at the end (`dict.setdefault`).
* Array cell values are modelled as `Option Int`, `none` standing for NaN /
  missing; attribute values as `AttrVal` (a number or a string).
* Python exceptions (`RuntimeError`, `KeyError` on a required attribute) are
  modelled with `Except`.
* `itscube.py` references the constants `ImgPairInfo.ACQUISITION_DATE_IMG1/2`,
  `ImgPairInfo.TIME_STANDARD_IMG1/2`, `DataVars.AUTORIFT_SOFTWARE_VERSION` and
  `DataVars.AUTORIFT_PARAMETER_FILE`, which this snapshot of `itscube_types.py`
  does not define (a naming slip; the intended attribute-name strings are evident
  from how the module uses them elsewhere).  The embedding uses the intended
  string values for those constants.
-/

namespace ItsLive

/-! ## Granules and deduplication (`ITSCube.skip_duplicate_granules`) -/

/-- A candidate granule URL, represented by the tokens that
`ITSCube.get_tokens_from_filename` extracts from its basename
(tokens 3, 4, 2 and 11, 12, 10 of the `_`-separated name), plus a `tag`
standing for the rest of the filename so that equality of `Granule`
values corresponds to equality of URL strings. -/
structure Granule where
  acq1 : Nat
  path_row1 : Nat
  acq2 : Nat
  path_row2 : Nat
  proc1 : Nat
  proc2 : Nat
  tag : Nat
deriving DecidableEq, Repr

/-- The granule key built in `skip_duplicate_granules`:
`'_'.join([url_acq_1, path_row_1, url_acq_2, path_row_2])`.
Both acquisition dates and both path/rows identify the physical image pair. -/
abbrev GranuleId := Nat × Nat × Nat × Nat

/-- `granule_id` from `skip_duplicate_granules` (lines 245-250). -/
def granule_id (g : Granule) : GranuleId := (g.acq1, g.path_row1, g.acq2, g.path_row2)

/-- `url_proc_1 == found_proc_1 and url_proc_2 == found_proc_2`
(lines 266-267): both processing dates identical. -/
def same_proc (u f : Granule) : Bool :=
  u.proc1 == f.proc1 && u.proc2 == f.proc2

/-- The removal condition of lines 283-293:
`url_proc_1 >= found_proc_1 and url_proc_2 >= found_proc_2`, or
(`elif`) `url_proc_1 > found_proc_1`. -/
def remove_cond (u f : Granule) : Bool :=
  (decide (f.proc1 ≤ u.proc1) && decide (f.proc2 ≤ u.proc2)) || decide (f.proc1 < u.proc1)

/-- The `keep_urls` dict: granule key to list of kept URLs, in insertion order. -/
abbrev KeepUrls := List (GranuleId × List Granule)

/-- Ordered-dict lookup (`granule_id in keep_urls` / `keep_urls[granule_id]`). -/
def assoc_lookup : KeepUrls → GranuleId → Option (List Granule)
  | [], _ => none
  | (k, v) :: rest, k' => if k = k' then some v else assoc_lookup rest k'

/-- Ordered-dict value update at an existing key (position preserved). -/
def assoc_update : KeepUrls → GranuleId → List Granule → KeepUrls
  | [], _, _ => []
  | p :: rest, k, v =>
      if p.1 = k then (k, v) :: assoc_update rest k v else p :: assoc_update rest k v

/-- State of the deduplication loop: the `keep_urls` dict and the
`self.skipped_double_granules` list. -/
structure DedupState where
  keep_urls : KeepUrls
  skipped : List Granule
deriving DecidableEq, Repr

/-- One iteration of the `for each_url in found_urls` loop of
`skip_duplicate_granules` (lines 239-313). -/
def process_granule (st : DedupState) (u : Granule) : DedupState :=
  match assoc_lookup st.keep_urls (granule_id u) with
  | none =>
      -- granule for a new ID: `keep_urls.setdefault(granule_id, []).append(each_url)`
      { st with keep_urls := st.keep_urls ++ [(granule_id u, [u])] }
  | some group =>
      if group.any (fun f => same_proc u f) then
        -- identical processing times: keep both (lines 266-270)
        { st with keep_urls := assoc_update st.keep_urls (granule_id u) (group ++ [u]) }
      else
        -- collect kept URLs with older processing dates (lines 277-293)
        let remove_urls := group.filter (fun f => remove_cond u f)
        if remove_urls.isEmpty then
          -- new granule has older processing date: skip it (lines 306-309)
          { st with skipped := st.skipped ++ [u] }
        else
          -- replace older processed granules with the new one (lines 295-304)
          { keep_urls := assoc_update st.keep_urls (granule_id u)
              ((group.filter fun f => decide (f ∉ remove_urls)) ++ [u]),
            skipped := st.skipped ++ remove_urls }

/-- Initial state of the loop (`keep_urls = {}`,
`self.skipped_double_granules = []`). -/
def dedup_init : DedupState := ⟨[], []⟩

/-- `ITSCube.skip_duplicate_granules` (lines 228-321): returns the kept
granules (concatenation of the dict's value lists in key insertion order)
and the recorded duplicate rejections `self.skipped_double_granules`. -/
def skip_duplicate_granules (found_urls : List Granule) : List Granule × List Granule :=
  let st := found_urls.foldl process_granule dedup_init
  ((st.keep_urls.map Prod.snd).flatten, st.skipped)

/-- Keys of the `keep_urls` dict, in insertion order. -/
def keys (ks : KeepUrls) : List GranuleId := ks.map Prod.fst

/-- Invariant of the deduplication loop state:
  * every granule stored under a key has that key,
  * dict keys are distinct,
  * all granules of one group have identical processing dates
    (granules join a group either alone, or via the identical-processing-dates
    branch, or after evicting every older member),
  * groups are never empty. -/
structure GoodState (st : DedupState) : Prop where
  key_mem : ∀ p ∈ st.keep_urls, ∀ g ∈ p.2, granule_id g = p.1
  nodup : (keys st.keep_urls).Nodup
  homog : ∀ p ∈ st.keep_urls, ∀ g ∈ p.2, ∀ f ∈ p.2, g.proc1 = f.proc1 ∧ g.proc2 = f.proc2
  nonnil : ∀ p ∈ st.keep_urls, p.2 ≠ []

/-- The effect of one loop iteration on the group of the incoming granule's own
key alone: first component is the new group, second the granules newly recorded
as duplicate rejections.  (`[]` stands for "no group for this key yet".) -/
def step_group (gl : List Granule) (u : Granule) : List Granule × List Granule :=
  if gl.isEmpty then ([u], [])
  else if gl.any (fun f => same_proc u f) then (gl ++ [u], [])
  else
    let remove_urls := gl.filter (fun f => remove_cond u f)
    if remove_urls.isEmpty then (gl, [u])
    else ((gl.filter fun f => decide (f ∉ remove_urls)) ++ [u], remove_urls)

/-- `step_group` lifted to a (group, rejections-so-far) accumulator. -/
def per_key_step (p : List Granule × List Granule) (u : Granule) : List Granule × List Granule :=
  ((step_group p.1 u).1, p.2 ++ (step_group p.1 u).2)

/-- Running the whole loop restricted to one key. -/
def per_key_from (gl : List Granule) (l : List Granule) : List Granule × List Granule :=
  l.foldl per_key_step (gl, [])

/-- The group currently kept for key `k` (empty if the key is absent). -/
def group_of (st : DedupState) (k : GranuleId) : List Granule :=
  (assoc_lookup st.keep_urls k).getD []

/-- The sublist of granules whose physical-pair key is `k`. -/
def filter_key (k : GranuleId) (l : List Granule) : List Granule :=
  l.filter fun g => decide (granule_id g = k)

/-- Concrete granules used to instantiate hypothesis-carrying theorems:
`w_old` and `w_new` share a physical-pair key, `w_new` has strictly newer
processing dates; `w_newer` dominates both; `w_twin` has the same processing
dates as `w_old` but a different filename tail; `w_other` has a different key. -/
def w_old : Granule := ⟨3, 4, 5, 6, 1, 1, 100⟩

def w_new : Granule := ⟨3, 4, 5, 6, 2, 2, 101⟩

def w_newer : Granule := ⟨3, 4, 5, 6, 10, 10, 102⟩

def w_twin : Granule := ⟨3, 4, 5, 6, 1, 1, 103⟩

def w_other : Granule := ⟨7, 8, 9, 9, 5, 5, 104⟩

/-- A dedup-loop state that already keeps `w_old` under its key. -/
def w_state : DedupState := ⟨[(granule_id w_old, [w_old])], []⟩

/-! ## Arrays, attribute values and granule datasets -/

/-- A 2-D array over the (y, x) axes; `none` models NaN / missing. -/
abbrev Grid := List (List (Option Int))

/-- An attribute value: a number or a string (dates are abstracted as numbers). -/
inductive AttrVal where
  | num (n : Int)
  | str (s : String)
deriving DecidableEq, Repr

/- String constants of `itscube_types.py` (class `DataVars`), restricted to the
ones the embedded code paths use.  A few constants are referenced by
`itscube.py` but missing from this snapshot of `itscube_types.py` (see the file
header); their intended string values are used. -/
namespace DataVars

def GRID_MAPPING : String := "grid_mapping"

def GRID_MAPPING_NAME : String := "grid_mapping_name"

def STABLE_COUNT : String := "stable_count"

def STABLE_COUNT_SLOW : String := "stable_count_slow"

def STABLE_COUNT_MASK : String := "stable_count_mask"

def FLAG_STABLE_SHIFT : String := "flag_stable_shift"

def STABLE_SHIFT : String := "stable_shift"

def STABLE_SHIFT_SLOW : String := "stable_shift_slow"

def STABLE_SHIFT_MASK : String := "stable_shift_mask"

def V : String := "v"

def MAP_SCALE_CORRECTED : String := "map_scale_corrected"

def VX : String := "vx"

def STABLE_RMSE : String := "stable_rmse"

def ERROR : String := "error"

def ERROR_MASK : String := "error_mask"

def ERROR_MODELED : String := "error_modeled"

def ERROR_SLOW : String := "error_slow"

def VY : String := "vy"

def CHIP_SIZE_HEIGHT : String := "chip_size_height"

def CHIP_SIZE_WIDTH : String := "chip_size_width"

def INTERP_MASK : String := "interp_mask"

def V_ERROR : String := "v_error"

def VA : String := "va"

def VP : String := "vp"

def VP_ERROR : String := "vp_error"

def VR : String := "vr"

def VXP : String := "vxp"

def VYP : String := "vyp"

def URL : String := "original_url_path"

def POLAR_STEREOGRAPHIC : String := "Polar_Stereographic"

def UTM_PROJECTION : String := "UTM_Projection"

def MAPPING : String := "mapping"

def MISSING_BYTE : Int := 0

def MISSING_VALUE : Int := -32767

def AUTORIFT_SOFTWARE_VERSION : String := "autoRIFT_software_version"

def AUTORIFT_PARAMETER_FILE : String := "autoRIFT_parameter_file"

namespace ImgPairInfo

def NAME : String := "img_pair_info"

def MISSION_IMG1 : String := "mission_img1"

def SENSOR_IMG1 : String := "sensor_img1"

def SATELLITE_IMG1 : String := "satellite_img1"

def ACQUISITION_IMG1 : String := "acquisition_img1"

def MISSION_IMG2 : String := "mission_img2"

def SENSOR_IMG2 : String := "sensor_img2"

def SATELLITE_IMG2 : String := "satellite_img2"

def ACQUISITION_IMG2 : String := "acquisition_img2"

def DATE_DT : String := "date_dt"

def DATE_CENTER : String := "date_center"

def ROI_VALID_PERCENTAGE : String := "roi_valid_percentage"

def AUTORIFT_SOFTWARE_VERSION : String := "autoRIFT_software_version"

def ACQUISITION_DATE_IMG1 : String := "acquisition_date_img1"

def ACQUISITION_DATE_IMG2 : String := "acquisition_date_img2"

def TIME_STANDARD_IMG1 : String := "time_standard_img1"

def TIME_STANDARD_IMG2 : String := "time_standard_img2"

/-- `ImgPairInfo.ALL`: the `img_pair_info` attributes promoted to 1-D
record-indexed cube variables. -/
def ALL : List String :=
  [MISSION_IMG1, SENSOR_IMG1, SATELLITE_IMG1, MISSION_IMG2, SENSOR_IMG2,
   SATELLITE_IMG2, DATE_DT, DATE_CENTER, ROI_VALID_PERCENTAGE,
   AUTORIFT_SOFTWARE_VERSION]

end ImgPairInfo

end DataVars

/-- One granule's dataset (an opened NetCDF file, or its spatial crop): the
spatial variables every granule must provide (`v`, `vx`, `vy`,
`chip_size_height`, `chip_size_width`, `interp_mask` are accessed
unconditionally by `combine_layers`), the optional format-dependent spatial
variables (`v_error`, `va`, `vr`, `vxp`, `vyp`, `vp`, `vp_error`), per-variable
attribute maps, dataset-level attributes, the projection metadata variables and
the fields `preprocess_dataset` reads.  Memory-freeing `drop_vars` calls of
`combine_layers` are not modelled: they never change any value later read. -/
structure DSModel where
  utm_projection : Option Int
  polar_stereographic : Option Int
  mapping : Option Int
  xs : List Int
  ys : List Int
  date_center : Int
  date_dt : Int
  v : Grid
  vx : Grid
  vy : Grid
  chip_size_height : Grid
  chip_size_width : Grid
  interp_mask : Grid
  opt_vars : List (String × Grid)
  var_attrs : List (String × List (String × AttrVal))
  ds_attrs : List (String × AttrVal)
deriving DecidableEq, Repr

/-- The fixed per-run configuration of an `ITSCube` object: target projection,
polygon bounds (`self.x`, `self.y`), the datacube grid and the grid cell size. -/
structure CubeConfig where
  projection : Int
  x_min : Int
  x_max : Int
  y_min : Int
  y_max : Int
  grid_x : List Int
  grid_y : List Int
  cell_size : Nat
deriving DecidableEq, Repr

/-! ## `ITSCube.preprocess_dataset` -/

/-- Fatal errors `preprocess_dataset` can raise: the unsupported-projection
`RuntimeError`, the grid-cell-size `RuntimeError`, and the `IndexError` Python
would raise computing the cell size of a single-column crop. -/
inductive PreprocessError where
  | unsupported_projection (url : Int)
  | cell_size_mismatch (url : Int)
  | index_out_of_range (url : Int)
deriving DecidableEq, Repr

/-- The 5-tuple `preprocess_dataset` returns:
`(empty, int(ds_projection), mid_date, ds_url, mask_data)`. -/
structure PreprocessResult where
  is_empty : Bool
  projection : Int
  mid_date : Option Int
  url : Int
  data : Option DSModel
deriving DecidableEq, Repr

/-- Membership in a closed coordinate interval (`(c >= lo) & (c <= hi)`). -/
def in_bounds (lo hi c : Int) : Bool := decide (lo ≤ c) && decide (c ≤ hi)

/-- Crop a 2-D variable to the rows/columns whose y/x coordinates fall inside
the polygon bounds (`ds.where(mask_lon & mask_lat, drop=True)`). -/
def crop_grid (xs ys : List Int) (cfg : CubeConfig) (g : Grid) : Grid :=
  ((ys.zip g).filter fun p => in_bounds cfg.y_min cfg.y_max p.1).map
    fun p => (((xs.zip p.2).filter fun q => in_bounds cfg.x_min cfg.x_max q.1).map Prod.snd)

/-- Crop a whole granule dataset. -/
def crop_ds (cfg : CubeConfig) (ds : DSModel) : DSModel :=
  { ds with
    xs := ds.xs.filter fun c => in_bounds cfg.x_min cfg.x_max c,
    ys := ds.ys.filter fun c => in_bounds cfg.y_min cfg.y_max c,
    v := crop_grid ds.xs ds.ys cfg ds.v,
    vx := crop_grid ds.xs ds.ys cfg ds.vx,
    vy := crop_grid ds.xs ds.ys cfg ds.vy,
    chip_size_height := crop_grid ds.xs ds.ys cfg ds.chip_size_height,
    chip_size_width := crop_grid ds.xs ds.ys cfg ds.chip_size_width,
    interp_mask := crop_grid ds.xs ds.ys cfg ds.interp_mask,
    opt_vars := ds.opt_vars.map fun p => (p.1, crop_grid ds.xs ds.ys cfg p.2) }

/-- `np.any(g.notnull())`: some cell holds a value. -/
def grid_any_some (g : Grid) : Bool := g.any fun row => row.any fun c => c.isSome

/-- `ITSCube.preprocess_dataset` (lines 732-823).  The `UTM_Projection` and
`Polar_Stereographic` detection branches are commented out in the source
(lines 767-771): only the `mapping` variable is consulted, and the
unsupported-projection error is raised whenever `mapping` is absent.  The
middle date is `date_center` plus the day-separation re-expressed as
milliseconds (dates are abstracted to integer millisecond timestamps). -/
def preprocess_dataset (cfg : CubeConfig) (ds : DSModel) (url : Int) :
    Except PreprocessError PreprocessResult :=
  match ds.mapping with
  | none => .error (.unsupported_projection url)
  | some ds_projection =>
      if ds_projection = cfg.projection then
        let mid_date := ds.date_center + ds.date_dt
        let xs_in := ds.xs.filter fun c => in_bounds cfg.x_min cfg.x_max c
        let ys_in := ds.ys.filter fun c => in_bounds cfg.y_min cfg.y_max c
        if xs_in.length * ys_in.length = 0 then
          -- the inclusion mask selects no cell: an "empty" rejection
          .ok ⟨true, ds_projection, none, url, none⟩
        else
          let mask_data := crop_ds cfg ds
          if grid_any_some mask_data.v then
            match mask_data.xs with
            | x0 :: x1 :: _ =>
                if (x0 - x1).natAbs = cfg.cell_size then
                  .ok ⟨false, ds_projection, some mid_date, url, some mask_data⟩
                else .error (.cell_size_mismatch url)
            | _ => .error (.index_out_of_range url)
          else
            -- no valid velocity value in the crop: an "empty" rejection
            .ok ⟨true, ds_projection, none, url, none⟩
      else
        -- wrong-projection rejection: `empty` stays False, no date, no data
        .ok ⟨false, ds_projection, none, url, none⟩

/-! ## Cube variables and batch assembly (`ITSCube.combine_layers`) -/

/-- A variable of the combined dataset: a scalar (the `mapping` projection
descriptor), a 1-D record-indexed variable, or a 3-D
(record, y, x) variable. -/
inductive CubeVar where
  | scalar (v : Int)
  | record (vals : List AttrVal)
  | spatial (vals : List Grid)
deriving DecidableEq, Repr

/-- Length along the `mid_date` record axis (`none` for a scalar variable). -/
def recordLen : CubeVar → Option Nat
  | .scalar _ => none
  | .record vals => some vals.length
  | .spatial vals => some vals.length

/-- The data variables of an `xr.Dataset` under construction. -/
abbrev Entries := List (String × CubeVar)

/-- The combined batch dataset: the `mid_date` coordinate and the data
variables.  (The two spatial coordinates are the fixed cube grid.) -/
structure CubeDataset where
  mid_date : List (Option Int)
  vars : Entries
deriving DecidableEq, Repr

/-- Fatal errors of `combine_layers`: a required attribute access fails
(`KeyError` / the `RuntimeError` of `get_data_var_attr` with no
`missing_value`), or a cross-record consistency check fails. -/
inductive CombineError where
  | missing_attr (url : Int) (var_name : String) (attr_name : String)
  | inconsistent (what : String)
  | missing_projection_info
deriving DecidableEq, Repr

/-- A list comprehension whose element computation can raise: evaluates left to
right, propagating the first error. -/
def mapME {ε α β : Type} (f : α → Except ε β) : List α → Except ε (List β)
  | [] => .ok []
  | a :: l =>
      match f a with
      | .error e => .error e
      | .ok b =>
          match mapME f l with
          | .error e => .error e
          | .ok rest => .ok (b :: rest)

/-- The variables every granule provides (accessed unconditionally). -/
def required_vars : List String :=
  [DataVars.V, DataVars.VX, DataVars.VY, DataVars.CHIP_SIZE_HEIGHT,
   DataVars.CHIP_SIZE_WIDTH, DataVars.INTERP_MASK, DataVars.ImgPairInfo.NAME]

/-- `var_name in ds`. -/
def in_ds (ds : DSModel) (name : String) : Bool :=
  required_vars.contains name || (ds.opt_vars.lookup name).isSome
    || (name == DataVars.MAPPING && ds.mapping.isSome)
    || (name == DataVars.UTM_PROJECTION && ds.utm_projection.isSome)
    || (name == DataVars.POLAR_STEREOGRAPHIC && ds.polar_stereographic.isSome)

/-- `ds[var_name].attrs` (empty for an absent variable). -/
def attrs_of (ds : DSModel) (var_name : String) : List (String × AttrVal) :=
  (ds.var_attrs.lookup var_name).getD []

/-- `ds[var_name].attrs[attr_name]` as an `Option`. -/
def attr_of (ds : DSModel) (var_name attr_name : String) : Option AttrVal :=
  (attrs_of ds var_name).lookup attr_name

/-- The all-missing placeholder built by `get_data_var`
(`np.empty((len(grid_y), len(grid_x)))` filled with NaN). -/
def empty_grid (cfg : CubeConfig) : Grid :=
  List.replicate cfg.grid_y.length (List.replicate cfg.grid_x.length none)

/-- `ITSCube.get_data_var` (lines 657-678): the granule's own variable if
present, otherwise the all-missing placeholder on the cube grid.  (Only the
optional spatial variables are ever requested.) -/
def get_data_var (cfg : CubeConfig) (ds : DSModel) (var_name : String) : Grid :=
  match ds.opt_vars.lookup var_name with
  | some g => g
  | none => empty_grid cfg

/-- `ITSCube.get_data_var_attr` (lines 680-730) with a provided
`missing_value` (`to_date` conversions are abstracted away with the attribute
values themselves). -/
def get_data_var_attr (ds : DSModel) (var_name attr_name : String)
    (missing_value : AttrVal) : AttrVal :=
  if in_ds ds var_name then
    match attr_of ds var_name attr_name with
    | some v => v
    | none => missing_value
  else missing_value

/-- `ITSCube.get_data_var_attr` with `missing_value=None`: the attribute must
exist, otherwise a `RuntimeError` is raised. -/
def get_data_var_attr_req (ds : DSModel) (url : Int) (var_name attr_name : String) :
    Except CombineError AttrVal :=
  if in_ds ds var_name then
    match attr_of ds var_name attr_name with
    | some v => .ok v
    | none => .error (.missing_attr url var_name attr_name)
  else .error (.missing_attr url var_name attr_name)

/-- `_stable_rmse_vars = [DataVars.VX, DataVars.VY]`. -/
def stable_rmse_vars : List String := [DataVars.VX, DataVars.VY]

/-- `_v_comp_attrs`: the per-component error attribute kinds. -/
def v_comp_attrs : List String :=
  [DataVars.ERROR, DataVars.ERROR_MASK, DataVars.ERROR_MODELED, DataVars.ERROR_SLOW]

/-- One `v*_error*` 1-D variable built by `process_v_attributes` (lines
873-921): for `vx`/`vy`, a granule lacking the per-component error attribute
falls back to the legacy `stable_rmse` attribute. -/
def error_var_entry (dss : List DSModel) (urls : List Int) (var_name pfx : String) :
    String × CubeVar :=
  let error_name := var_name ++ "_" ++ pfx
  (error_name, .record ((dss.zip urls).map fun p =>
    if stable_rmse_vars.contains var_name then
      (if (attr_of p.1 var_name error_name).isSome then
        get_data_var_attr p.1 var_name error_name (.num DataVars.MISSING_VALUE)
      else
        get_data_var_attr p.1 var_name DataVars.STABLE_RMSE (.num DataVars.MISSING_VALUE))
    else get_data_var_attr p.1 var_name error_name (.num DataVars.MISSING_VALUE)))

/-- One `<var>_stable_shift*` 1-D variable (lines 1019-1076). -/
def shift_var_entry (dss : List DSModel) (urls : List Int) (var_name attr : String) :
    String × CubeVar :=
  (var_name ++ "_" ++ attr, .record ((dss.zip urls).map fun p =>
    get_data_var_attr p.1 var_name attr (.num DataVars.MISSING_VALUE)))

/-- `var_name in self.ds[0]`. -/
def head_in_ds (dss : List DSModel) (name : String) : Bool :=
  match dss.head? with
  | some d0 => in_ds d0 name
  | none => false

/-- `attr_name in self.ds[0][var_name].attrs`, as an `Option`. -/
def head_attr (dss : List DSModel) (var_name attr_name : String) : Option AttrVal :=
  match dss.head? with
  | some d0 => attr_of d0 var_name attr_name
  | none => none

/-- The capture-once pattern of `stable_count`(`_slow`/`_mask`) (lines
933-991): if the variable is not in the cube yet and the first granule carries
the attribute, collect it from every granule (a granule lacking it is a fatal
error, as `get_data_var_attr` is called without a `missing_value`). -/
def cond_count_entry (dss : List DSModel) (urls : List Int) (layers : Entries)
    (attr var_name : String) (extra : Bool) : Except CombineError Entries :=
  if (layers.lookup attr).isNone && extra then
    match mapME (fun p => get_data_var_attr_req p.1 p.2 var_name attr) (dss.zip urls) with
    | .error e => .error e
    | .ok vals => .ok (layers ++ [(attr, .record vals)])
  else .ok layers

/-- `ITSCube.process_v_attributes` (lines 825-1080): the four per-component
error variables, the capture-once `stable_count*` and `flag_stable_shift`
variables, and the three per-variable `stable_shift*` variables.  Attribute
clean-up on the cube variables (pure metadata) is not modelled. -/
def process_v_attributes (dss : List DSModel) (urls : List Int) (layers : Entries)
    (var_name : String) : Except CombineError Entries :=
  let l1 := layers ++ (v_comp_attrs.map fun pfx => error_var_entry dss urls var_name pfx)
  match cond_count_entry dss urls l1 DataVars.STABLE_COUNT var_name
      (head_in_ds dss var_name && (head_attr dss var_name DataVars.STABLE_COUNT).isSome) with
  | .error e => .error e
  | .ok l2 =>
    match cond_count_entry dss urls l2 DataVars.STABLE_COUNT_SLOW var_name
        (head_in_ds dss var_name
          && (head_attr dss var_name DataVars.STABLE_COUNT_SLOW).isSome) with
    | .error e => .error e
    | .ok l3 =>
      match cond_count_entry dss urls l3 DataVars.STABLE_COUNT_MASK var_name
          (head_in_ds dss var_name
            && (head_attr dss var_name DataVars.STABLE_COUNT_MASK).isSome) with
      | .error e => .error e
      | .ok l4 =>
          let l5 := if (l4.lookup DataVars.FLAG_STABLE_SHIFT).isNone
              && head_in_ds dss var_name then
            l4 ++ [(DataVars.FLAG_STABLE_SHIFT, .record ((dss.zip urls).map fun p =>
              get_data_var_attr p.1 var_name DataVars.FLAG_STABLE_SHIFT (.num 0)))]
          else l4
          .ok (l5 ++ [shift_var_entry dss urls var_name DataVars.STABLE_SHIFT,
            shift_var_entry dss urls var_name DataVars.STABLE_SHIFT_SLOW,
            shift_var_entry dss urls var_name DataVars.STABLE_SHIFT_MASK])

/-- The cross-record `grid_mapping` consistency check of `combine_layers`
(lines 1244-1263): new-format granules must agree on
`mapping.grid_mapping_name`, old-format granules on `v.grid_mapping`;
a mismatch is a fatal error. -/
def check_grid_mapping (dss : List DSModel) : Except CombineError Unit :=
  match dss.head? with
  | none => .ok ()
  | some d0 =>
      match attr_of d0 DataVars.V DataVars.GRID_MAPPING with
      | none => .error (.missing_attr 0 DataVars.V DataVars.GRID_MAPPING)
      | some gv =>
          if gv = AttrVal.str DataVars.MAPPING then
            match mapME (fun ds =>
                match attr_of ds DataVars.MAPPING DataVars.GRID_MAPPING_NAME with
                | some v => Except.ok v
                | none => Except.error
                    (CombineError.missing_attr 0 DataVars.MAPPING DataVars.GRID_MAPPING_NAME))
                dss with
            | .error e => .error e
            | .ok vals =>
                if vals.eraseDups.length > 1 then
                  .error (.inconsistent DataVars.GRID_MAPPING_NAME)
                else .ok ()
          else
            match mapME (fun ds =>
                match attr_of ds DataVars.V DataVars.GRID_MAPPING with
                | some v => Except.ok v
                | none => Except.error
                    (CombineError.missing_attr 0 DataVars.V DataVars.GRID_MAPPING))
                dss with
            | .error e => .error e
            | .ok vals =>
                if vals.eraseDups.length > 1 then
                  .error (.inconsistent DataVars.GRID_MAPPING)
                else .ok ()

/-- `ds.attrs[name]` (a `KeyError` on an absent dataset attribute is fatal). -/
def ds_attr_req (ds : DSModel) (name : String) : Except CombineError AttrVal :=
  match ds.ds_attrs.lookup name with
  | some v => .ok v
  | none => .error (.missing_attr 0 name name)

/-- The acquisition-date variables (lines 1510-1548): per granule, prefer the
legacy `acquisition_img*` attribute name when present, else the current
`acquisition_date_img*` name (required). -/
def acq_entry (dss : List DSModel) (urls : List Int) (new_name old_name : String) :
    Except CombineError (String × CubeVar) :=
  match mapME (fun p =>
      if (attr_of p.1 DataVars.ImgPairInfo.NAME old_name).isSome then
        get_data_var_attr_req p.1 p.2 DataVars.ImgPairInfo.NAME old_name
      else
        get_data_var_attr_req p.1 p.2 DataVars.ImgPairInfo.NAME new_name)
      (dss.zip urls) with
  | .error e => .error e
  | .ok vals => .ok (new_name, .record vals)

/-- `len(set(values)) > 1` raises on a cross-record mismatch. -/
def unique_check (vals : List AttrVal) (what : String) : Except CombineError Unit :=
  if vals.eraseDups.length > 1 then .error (.inconsistent what) else .ok ()

def CHIP_SIZE_HEIGHT_NO_VALUE : Int := 65535

/-- `np.ma.masked_equal(values, NO_VALUE).count()`: number of cells different
from the no-value marker. -/
def grid_count_ne (g : Grid) (v : Int) : Nat :=
  (g.map fun row => (row.filter fun c => decide (c ≠ some v)).length).sum

/-- Lines 1399-1404: optical legacy granules may carry an all-no-value
`chip_size_height`; `chip_size_width` is used in its place. -/
def chip_height_source (ds : DSModel) : Grid :=
  if grid_count_ne ds.chip_size_height CHIP_SIZE_HEIGHT_NO_VALUE ≠ 0 then
    ds.chip_size_height
  else ds.chip_size_width

/-- The data-variable construction of `ITSCube.combine_layers`
(lines 1153-1568), in source order: `original_url_path`; the once-only
`mapping` projection descriptor on the first write (lines 1207-1230); `v`; the
`grid_mapping` consistency check; the conditional `map_scale_corrected`;
`v_error`; `vx`, `vy`, `va`, `vr`, `vxp`, `vyp` each followed by
`process_v_attributes`; `chip_size_height` (with the width fallback),
`chip_size_width`, `interp_mask`; `vp`, `vp_error`; the `img_pair_info`
variables; `autoRIFT_software_version` and the parameter-file consistency
check; the two acquisition-date variables; the two time-standard consistency
checks.  Variable/coordinate attributes and the persistence encoding carry no
data and are not modelled. -/
def combine_vars (cfg : CubeConfig) (is_first_write : Bool) (dates : List (Option Int))
    (dss : List DSModel) (urls : List Int) : Except CombineError CubeDataset :=
  let l0 : Entries := [(DataVars.URL, .record (urls.map AttrVal.num))]
  let proj : Except CombineError Entries :=
    if is_first_write then
      match dss.head? with
      | none => .error .missing_projection_info
      | some d0 =>
          if d0.polar_stereographic.isSome || d0.utm_projection.isSome
              || d0.mapping.isSome then
            .ok (l0 ++ [(DataVars.MAPPING, .scalar 0)])
          else .error .missing_projection_info
    else .ok l0
  match proj with
  | .error e => .error e
  | .ok l1 =>
    let l2 := l1 ++ [(DataVars.V, .spatial (dss.map fun ds => ds.v))]
    match check_grid_mapping dss with
    | .error e => .error e
    | .ok _ =>
      let l3 := if (head_attr dss DataVars.V DataVars.MAP_SCALE_CORRECTED).isSome then
          l2 ++ [(DataVars.MAP_SCALE_CORRECTED, .record ((dss.zip urls).map fun p =>
            get_data_var_attr p.1 DataVars.V DataVars.MAP_SCALE_CORRECTED
              (.num DataVars.MISSING_BYTE)))]
        else l2
      let l4 := l3 ++ [(DataVars.V_ERROR,
        .spatial (dss.map fun ds => get_data_var cfg ds DataVars.V_ERROR))]
      let l5 := l4 ++ [(DataVars.VX, .spatial (dss.map fun ds => ds.vx))]
      match process_v_attributes dss urls l5 DataVars.VX with
      | .error e => .error e
      | .ok l6 =>
        let l7 := l6 ++ [(DataVars.VY, .spatial (dss.map fun ds => ds.vy))]
        match process_v_attributes dss urls l7 DataVars.VY with
        | .error e => .error e
        | .ok l8 =>
          let l9 := l8 ++ [(DataVars.VA,
            .spatial (dss.map fun ds => get_data_var cfg ds DataVars.VA))]
          match process_v_attributes dss urls l9 DataVars.VA with
          | .error e => .error e
          | .ok l10 =>
            let l11 := l10 ++ [(DataVars.VR,
              .spatial (dss.map fun ds => get_data_var cfg ds DataVars.VR))]
            match process_v_attributes dss urls l11 DataVars.VR with
            | .error e => .error e
            | .ok l12 =>
              let l13 := l12 ++ [(DataVars.VXP,
                .spatial (dss.map fun ds => get_data_var cfg ds DataVars.VXP))]
              match process_v_attributes dss urls l13 DataVars.VXP with
              | .error e => .error e
              | .ok l14 =>
                let l15 := l14 ++ [(DataVars.VYP,
                  .spatial (dss.map fun ds => get_data_var cfg ds DataVars.VYP))]
                match process_v_attributes dss urls l15 DataVars.VYP with
                | .error e => .error e
                | .ok l16 =>
                  let l17 := l16
                    ++ [(DataVars.CHIP_SIZE_HEIGHT,
                          .spatial (dss.map chip_height_source)),
                        (DataVars.CHIP_SIZE_WIDTH,
                          .spatial (dss.map fun ds => ds.chip_size_width)),
                        (DataVars.INTERP_MASK,
                          .spatial (dss.map fun ds => ds.interp_mask)),
                        (DataVars.VP,
                          .spatial (dss.map fun ds => get_data_var cfg ds DataVars.VP)),
                        (DataVars.VP_ERROR,
                          .spatial (dss.map fun ds =>
                            get_data_var cfg ds DataVars.VP_ERROR))]
                  match mapME (fun name =>
                      match mapME (fun p => get_data_var_attr_req p.1 p.2
                          DataVars.ImgPairInfo.NAME name) (dss.zip urls) with
                      | .error e => Except.error e
                      | .ok vals => Except.ok (name, CubeVar.record vals))
                      DataVars.ImgPairInfo.ALL with
                  | .error e => .error e
                  | .ok ipi =>
                    let l18 := l17 ++ ipi
                    match mapME (fun ds =>
                        ds_attr_req ds DataVars.AUTORIFT_SOFTWARE_VERSION) dss with
                    | .error e => .error e
                    | .ok ver =>
                      let l19 := l18
                        ++ [(DataVars.AUTORIFT_SOFTWARE_VERSION, .record ver)]
                      match mapME (fun ds =>
                          ds_attr_req ds DataVars.AUTORIFT_PARAMETER_FILE) dss with
                      | .error e => .error e
                      | .ok pf =>
                        match unique_check pf DataVars.AUTORIFT_PARAMETER_FILE with
                        | .error e => .error e
                        | .ok _ =>
                          match acq_entry dss urls
                              DataVars.ImgPairInfo.ACQUISITION_DATE_IMG1
                              DataVars.ImgPairInfo.ACQUISITION_IMG1 with
                          | .error e => .error e
                          | .ok a1 =>
                            match acq_entry dss urls
                                DataVars.ImgPairInfo.ACQUISITION_DATE_IMG2
                                DataVars.ImgPairInfo.ACQUISITION_IMG2 with
                            | .error e => .error e
                            | .ok a2 =>
                              let l20 := l19 ++ [a1, a2]
                              match mapME (fun ds =>
                                  match attr_of ds DataVars.ImgPairInfo.NAME
                                      DataVars.ImgPairInfo.TIME_STANDARD_IMG1 with
                                  | some v => Except.ok v
                                  | none => Except.error (CombineError.missing_attr 0
                                      DataVars.ImgPairInfo.NAME
                                      DataVars.ImgPairInfo.TIME_STANDARD_IMG1)) dss with
                              | .error e => .error e
                              | .ok ts1 =>
                                match unique_check ts1
                                    DataVars.ImgPairInfo.TIME_STANDARD_IMG1 with
                                | .error e => .error e
                                | .ok _ =>
                                  match mapME (fun ds =>
                                      match attr_of ds DataVars.ImgPairInfo.NAME
                                          DataVars.ImgPairInfo.TIME_STANDARD_IMG2 with
                                      | some v => Except.ok v
                                      | none => Except.error (CombineError.missing_attr 0
                                          DataVars.ImgPairInfo.NAME
                                          DataVars.ImgPairInfo.TIME_STANDARD_IMG2)) dss with
                                  | .error e => .error e
                                  | .ok ts2 =>
                                    match unique_check ts2
                                        DataVars.ImgPairInfo.TIME_STANDARD_IMG2 with
                                    | .error e => .error e
                                    | .ok _ => .ok ⟨dates, l20⟩

/-! ## Accumulator state, store writes and the drivers -/

/-- The mutable `ITSCube` accumulator state: the three parallel sequences
(`self.dates`, `self.ds`, `self.urls`), the three rejection logs
(`self.skipped_proj_granules`, `self.skipped_empty_granules`,
`self.skipped_double_granules`) and the working `self.layers` object. -/
structure CubeState where
  dates : List (Option Int)
  dss : List DSModel
  urls : List Int
  skipped_proj : List (Int × List Int)
  skipped_empty : List Int
  skipped_double : List Granule
  layers : Option CubeDataset
deriving DecidableEq, Repr

/-- The state right after `ITSCube.__init__` / `ITSCube.clear`. -/
def init_cube_state : CubeState := ⟨[], [], [], [], [], [], none⟩

/-- `self.skipped_proj_granules.setdefault(layer_projection, []).append(url)`. -/
def proj_append (m : List (Int × List Int)) (k u : Int) : List (Int × List Int) :=
  if (m.lookup k).isSome then
    m.map fun p => if p.1 = k then (p.1, p.2 ++ [u]) else p
  else m ++ [(k, [u])]

/-- `ITSCube.add_layer` (lines 339-361). -/
def add_layer (st : CubeState) (r : PreprocessResult) : CubeState :=
  match r.data with
  | some d =>
      { st with
        dates := st.dates ++ [r.mid_date]
        dss := st.dss ++ [d]
        urls := st.urls ++ [r.url] }
  | none =>
      if r.is_empty then { st with skipped_empty := st.skipped_empty ++ [r.url] }
      else { st with skipped_proj := proj_append st.skipped_proj r.projection r.url }

/-- `ITSCube.clear_vars` (lines 167-179): drop the three parallel sequences and
the working layers object; the rejection logs are untouched. -/
def clear_vars (st : CubeState) : CubeState :=
  { st with dss := [], layers := none, dates := [], urls := [] }

/-- `ITSCube.clear` (lines 181-190): `clear_vars` plus resetting the rejection
logs (run start). -/
def clear (st : CubeState) : CubeState :=
  { clear_vars st with skipped_proj := [], skipped_empty := [], skipped_double := [] }

/-- The output store: the sequence of appended batch datasets, each tagged with
the `is_first_write` flag it was written under (`to_zarr` creating the store vs
appending along `mid_date`). -/
abbrev Store := List (Bool × CubeDataset)

/-- `ITSCube.combine_layers` (lines 1138-1692) as a state/store transition:
reset `self.layers` to an empty object, return immediately when there are no
accumulated layers, otherwise build the combined dataset, write it to the
store under the given flag and `clear_vars` the accumulator. -/
def combine_layers_st (cfg : CubeConfig) (st : CubeState) (store : Store)
    (is_first_write : Bool) : Except CombineError (CubeState × Store) :=
  if st.dss.isEmpty then .ok ({ st with layers := some ⟨[], []⟩ }, store)
  else
    match combine_vars cfg is_first_write st.dates st.dss st.urls with
    | .error e => .error e
    | .ok b => .ok (clear_vars { st with layers := some b },
        store ++ [(is_first_write, b)])

/-- The per-granule loop of the sequential driver `ITSCube.create`
(lines 443-472): accumulate each preprocessing result; once
`len(self.urls) == NUM_GRANULES_TO_WRITE`, write the batch and clear the
first-write flag. -/
def create_loop (cfg : CubeConfig) (batch_size : Nat) :
    List PreprocessResult → Bool → CubeState → Store →
      Except CombineError (Store × CubeState × Bool)
  | [], first, st, store => .ok (store, st, first)
  | r :: rest, first, st, store =>
      let st1 := add_layer st r
      if st1.urls.length = batch_size then
        match combine_layers_st cfg st1 store first with
        | .error e => .error e
        | .ok (st2, store2) => create_loop cfg batch_size rest false st2 store2
      else create_loop cfg batch_size rest first st1 store

/-- The sequential driver `ITSCube.create` after granule discovery: the
per-granule loop followed by the final flush of a nonempty remainder
(lines 470-472). -/
def create_model (cfg : CubeConfig) (batch_size : Nat)
    (results : List PreprocessResult) : Except CombineError (Store × CubeState) :=
  match create_loop cfg batch_size results true init_cube_state [] with
  | .error e => .error e
  | .ok (store, st, first) =>
      if st.urls.length ≠ 0 then
        match combine_layers_st cfg st store first with
        | .error e => .error e
        | .ok (st2, store2) => .ok (store2, st2)
      else .ok (store, st)

/-- The chunked loop of the parallel driver `ITSCube.create_parallel`
(lines 506-543): process one chunk of up to `NUM_GRANULES_TO_WRITE` results,
call `combine_layers` unconditionally, and clear the first-write flag after the
FIRST chunk (`if start == 0`) whether or not anything was written.  `fuel`
bounds the iteration count (`results.length` suffices whenever
`batch_size > 0`; with `batch_size = 0` the Python loop never terminates). -/
def parallel_loop (cfg : CubeConfig) (batch_size : Nat) :
    Nat → List PreprocessResult → Bool → Nat → CubeState → Store →
      Except CombineError (Store × CubeState)
  | _, [], _, _, st, store => .ok (store, st)
  | 0, _ :: _, _, _, st, store => .ok (store, st)
  | fuel + 1, r :: rest, first, start, st, store =>
      let rem := r :: rest
      let num_tasks := if rem.length > batch_size then batch_size else rem.length
      let chunk := rem.take num_tasks
      let st1 := chunk.foldl add_layer st
      match combine_layers_st cfg st1 store first with
      | .error e => .error e
      | .ok (st2, store2) =>
          parallel_loop cfg batch_size fuel (rem.drop num_tasks)
            (if start = 0 then false else first) (start + num_tasks) st2 store2

/-- The parallel driver `ITSCube.create_parallel` after granule discovery. -/
def create_parallel_model (cfg : CubeConfig) (batch_size : Nat)
    (results : List PreprocessResult) : Except CombineError (Store × CubeState) :=
  parallel_loop cfg batch_size results.length results true 0 init_cube_state []

/-- Projection of a driver run onto the store (empty if the run raised). -/
def run_store (x : Except CombineError (Store × CubeState)) : Store :=
  match x with
  | .ok p => p.1
  | .error _ => []

/-- Projection of a `combine_layers` transition onto the state. -/
def cl_state (x : Except CombineError (CubeState × Store)) : CubeState :=
  match x with
  | .ok p => p.1
  | .error _ => init_cube_state

/-- Projection of a `combine_layers` transition onto the store. -/
def cl_store (x : Except CombineError (CubeState × Store)) : Store :=
  match x with
  | .ok p => p.2
  | .error _ => []

/-- Projection of a `combine_vars` result (junk on error). -/
def combined_dataset (x : Except CombineError CubeDataset) : CubeDataset :=
  match x with
  | .ok b => b
  | .error _ => ⟨[], []⟩

/-- Every cell of the grid is missing. -/
def all_missing (g : Grid) : Bool := g.all fun row => row.all fun c => c.isNone

/-- The spatial variables fetched through `get_data_var` during schema
unification (a granule may lack any of them). -/
def optional_spatial_vars : List String :=
  [DataVars.V_ERROR, DataVars.VA, DataVars.VR, DataVars.VXP, DataVars.VYP,
   DataVars.VP, DataVars.VP_ERROR]

/-- How many of a run's preprocessing results were accepted (carry data). -/
def accepted_count (results : List PreprocessResult) : Nat :=
  (results.filter fun r => r.data.isSome).length

/-! ## Concrete data for instantiating hypothesis-carrying theorems -/

/-- `img_pair_info` attributes of a well-formed new-format granule. -/
def ipi_attrs : List (String × AttrVal) :=
  [(DataVars.ImgPairInfo.MISSION_IMG1, .str "L"),
   (DataVars.ImgPairInfo.SENSOR_IMG1, .str "OLI"),
   (DataVars.ImgPairInfo.SATELLITE_IMG1, .str "8"),
   (DataVars.ImgPairInfo.MISSION_IMG2, .str "L"),
   (DataVars.ImgPairInfo.SENSOR_IMG2, .str "OLI"),
   (DataVars.ImgPairInfo.SATELLITE_IMG2, .str "8"),
   (DataVars.ImgPairInfo.DATE_DT, .num 32),
   (DataVars.ImgPairInfo.DATE_CENTER, .num 200),
   (DataVars.ImgPairInfo.ROI_VALID_PERCENTAGE, .num 99),
   (DataVars.ImgPairInfo.AUTORIFT_SOFTWARE_VERSION, .str "1.0"),
   (DataVars.ImgPairInfo.ACQUISITION_DATE_IMG1, .num 180),
   (DataVars.ImgPairInfo.ACQUISITION_DATE_IMG2, .num 220),
   (DataVars.ImgPairInfo.TIME_STANDARD_IMG1, .str "UTC"),
   (DataVars.ImgPairInfo.TIME_STANDARD_IMG2, .str "UTC")]

/-- A well-formed new-format granule dataset on a 1-row, 2-column grid that
carries `v_error`. -/
def good_ds : DSModel :=
  { utm_projection := none
    polar_stereographic := none
    mapping := some 32628
    xs := [0, 240]
    ys := [0]
    date_center := 200
    date_dt := 32
    v := [[some 7, some 8]]
    vx := [[some 1, some 2]]
    vy := [[some 3, some 4]]
    chip_size_height := [[some 16, some 16]]
    chip_size_width := [[some 16, some 16]]
    interp_mask := [[some 1, some 0]]
    opt_vars := [(DataVars.V_ERROR, [[some 2, some 2]])]
    var_attrs := [(DataVars.V, [(DataVars.GRID_MAPPING, .str DataVars.MAPPING)]),
                  (DataVars.MAPPING, [(DataVars.GRID_MAPPING_NAME, .str "utm")]),
                  (DataVars.ImgPairInfo.NAME, ipi_attrs)]
    ds_attrs := [(DataVars.AUTORIFT_SOFTWARE_VERSION, .str "1.0.8"),
                 (DataVars.AUTORIFT_PARAMETER_FILE, .str "param.nc")] }

/-- Like `good_ds` but lacking every optional spatial variable. -/
def good_ds_no_opt : DSModel := { good_ds with opt_vars := [] }

/-- A granule carrying only the legacy `UTM_Projection` metadata variable and
no `mapping` variable. -/
def utm_only_ds : DSModel :=
  { good_ds with
    mapping := none
    utm_projection := some 32628 }

/-- The run configuration matching `good_ds`. -/
def cfg_w : CubeConfig := ⟨32628, 0, 100000, 0, 100000, [0, 240], [0], 240⟩

/-- An accepted normalization result (`good_ds`). -/
def res_accept : PreprocessResult := ⟨false, 32628, some 200032, 7, some good_ds⟩

/-- A second accepted result, from the granule lacking optional variables. -/
def res_accept_no_opt : PreprocessResult := ⟨false, 32628, some 200033, 8, some good_ds_no_opt⟩

/-- An "empty region" rejection result. -/
def res_empty : PreprocessResult := ⟨true, 32628, none, 9, none⟩

/-- A "wrong projection" rejection result. -/
def res_wrong_proj : PreprocessResult := ⟨false, 32661, none, 10, none⟩

/-- An accumulator state holding one accepted record and earlier rejections. -/
def w_cube_state : CubeState :=
  ⟨[some 200032], [good_ds], [7], [(32661, [10])], [9], [w_old], none⟩

/-- Every variable of the entry list that has a record axis has record-axis
length `n`. -/
def entries_len_ok (n : Nat) (es : Entries) : Prop :=
  ∀ p ∈ es, recordLen p.2 = none ∨ recordLen p.2 = some n

/-- The accumulator's three parallel sequences have equal lengths. -/
def lens_ok (st : CubeState) : Prop :=
  st.dates.length = st.dss.length ∧ st.urls.length = st.dss.length

/-- Every batch persisted so far has all its record-axis variables of its own
record-axis length. -/
def store_ok (store : Store) : Prop :=
  ∀ e ∈ store, entries_len_ok e.2.mid_date.length e.2.vars

/-- Total record-axis length persisted so far (appends concatenate batches
along `mid_date`). -/
def store_total (store : Store) : Nat :=
  (store.map fun e => e.2.mid_date.length).sum

end ItsLive

namespace ItsLive

/-! ## Association-list lemmas -/

theorem assoc_lookup_eq_none {ks : KeepUrls} {k : GranuleId} :
    assoc_lookup ks k = none ↔ k ∉ keys ks := by
  induction ks with
  | nil => simp [assoc_lookup, keys]
  | cons p rest ih =>
      obtain ⟨k', v⟩ := p
      by_cases h : k' = k
      · subst h
        simp [assoc_lookup, keys]
      · have h' : k ≠ k' := fun hh => h hh.symm
        simp [assoc_lookup, keys, h, h', ih]

theorem assoc_lookup_mem {ks : KeepUrls} {k : GranuleId} {v : List Granule}
    (h : assoc_lookup ks k = some v) : (k, v) ∈ ks := by
  induction ks with
  | nil => simp [assoc_lookup] at h
  | cons p rest ih =>
      obtain ⟨k', w⟩ := p
      by_cases hk : k' = k
      · subst hk
        simp [assoc_lookup] at h
        subst h; exact List.mem_cons_self _ _
      · simp [assoc_lookup, hk] at h
        exact List.mem_cons_of_mem _ (ih h)

theorem keys_append (ks ls : KeepUrls) : keys (ks ++ ls) = keys ks ++ keys ls := by
  simp [keys]

theorem keys_assoc_update (ks : KeepUrls) (k : GranuleId) (v : List Granule) :
    keys (assoc_update ks k v) = keys ks := by
  induction ks with
  | nil => rfl
  | cons p rest ih =>
      by_cases h : p.1 = k
      · simp only [assoc_update, if_pos h, keys, List.map_cons]
        rw [h]
        exact congrArg (List.cons k) ih
      · simp only [assoc_update, if_neg h, keys, List.map_cons]
        exact congrArg (List.cons p.1) ih

theorem assoc_lookup_update_self {ks : KeepUrls} {k : GranuleId} {w : List Granule}
    (h : assoc_lookup ks k = some w) (v : List Granule) :
    assoc_lookup (assoc_update ks k v) k = some v := by
  induction ks with
  | nil => simp [assoc_lookup] at h
  | cons p rest ih =>
      obtain ⟨k', w'⟩ := p
      by_cases hk : k' = k
      · subst hk; simp [assoc_update, assoc_lookup]
      · simp only [assoc_lookup, hk, if_false] at h
        simp [assoc_update, assoc_lookup, hk, ih h]

theorem assoc_lookup_update_other {ks : KeepUrls} {k k' : GranuleId} (h : k ≠ k')
    (v : List Granule) :
    assoc_lookup (assoc_update ks k v) k' = assoc_lookup ks k' := by
  induction ks with
  | nil => rfl
  | cons p rest ih =>
      obtain ⟨k0, w⟩ := p
      by_cases hk : k0 = k
      · subst hk; simp [assoc_update, assoc_lookup, h, ih]
      · simp [assoc_update, assoc_lookup, hk, ih]

theorem assoc_lookup_append_none {ks ls : KeepUrls} {k : GranuleId}
    (h : assoc_lookup ks k = none) : assoc_lookup (ks ++ ls) k = assoc_lookup ls k := by
  induction ks with
  | nil => rfl
  | cons p rest ih =>
      obtain ⟨k', v⟩ := p
      by_cases hk : k' = k
      · simp [assoc_lookup, hk] at h
      · simp [assoc_lookup, hk] at h ⊢
        exact ih h

theorem assoc_lookup_append_some {ks ls : KeepUrls} {k : GranuleId} {v : List Granule}
    (h : assoc_lookup ks k = some v) : assoc_lookup (ks ++ ls) k = some v := by
  induction ks with
  | nil => simp [assoc_lookup] at h
  | cons p rest ih =>
      obtain ⟨k', w⟩ := p
      by_cases hk : k' = k
      · simp [assoc_lookup, hk] at h ⊢; exact h
      · simp [assoc_lookup, hk] at h ⊢; exact ih h

theorem assoc_lookup_append_fresh {ks : KeepUrls} {k : GranuleId} (h : k ∉ keys ks)
    (m : List Granule) : assoc_lookup (ks ++ [(k, m)]) k = some m := by
  rw [assoc_lookup_append_none (assoc_lookup_eq_none.2 h)]
  simp [assoc_lookup]

theorem assoc_update_append_fresh {ks : KeepUrls} {k : GranuleId} (h : k ∉ keys ks)
    (m v : List Granule) : assoc_update (ks ++ [(k, m)]) k v = ks ++ [(k, v)] := by
  induction ks with
  | nil => simp [assoc_update]
  | cons p rest ih =>
      have hp : p.1 ≠ k := by
        intro hk
        exact h (by simp [keys, hk])
      have h' : k ∉ keys rest := fun hm => h (by simp [keys] at hm ⊢; exact Or.inr hm)
      simp [assoc_update, hp, ih h']

theorem assoc_update_mem {ks : KeepUrls} {k : GranuleId} {v : List Granule} {p}
    (h : p ∈ assoc_update ks k v) : p ∈ ks ∨ p = (k, v) := by
  induction ks with
  | nil => simp [assoc_update] at h
  | cons q rest ih =>
      by_cases hk : q.1 = k
      · simp [assoc_update, hk] at h
        rcases h with h | h
        · right; exact h
        · rcases ih h with h' | h'
          · left; exact List.mem_cons_of_mem _ h'
          · right; exact h'
      · simp [assoc_update, hk] at h
        rcases h with h | h
        · left; simp [h]
        · rcases ih h with h' | h'
          · left; exact List.mem_cons_of_mem _ h'
          · right; exact h'

/-! ## Branch equations for `process_granule` -/

theorem process_granule_new {st : DedupState} {u : Granule}
    (hlk : assoc_lookup st.keep_urls (granule_id u) = none) :
    process_granule st u = { st with keep_urls := st.keep_urls ++ [(granule_id u, [u])] } := by
  unfold process_granule
  rw [hlk]

theorem process_granule_same {st : DedupState} {u : Granule} {group : List Granule}
    (hlk : assoc_lookup st.keep_urls (granule_id u) = some group)
    (hany : group.any (fun f => same_proc u f) = true) :
    process_granule st u =
      { st with keep_urls := assoc_update st.keep_urls (granule_id u) (group ++ [u]) } := by
  unfold process_granule
  rw [hlk]
  simp [hany]

theorem process_granule_skip {st : DedupState} {u : Granule} {group : List Granule}
    (hlk : assoc_lookup st.keep_urls (granule_id u) = some group)
    (hany : group.any (fun f => same_proc u f) = false)
    (hrem : group.filter (fun f => remove_cond u f) = []) :
    process_granule st u = { st with skipped := st.skipped ++ [u] } := by
  unfold process_granule
  rw [hlk]
  simp [hany, hrem]

theorem process_granule_replace_eq {st : DedupState} {u : Granule} {group : List Granule}
    (hlk : assoc_lookup st.keep_urls (granule_id u) = some group)
    (hany : group.any (fun f => same_proc u f) = false)
    (hrem : group.filter (fun f => remove_cond u f) ≠ []) :
    process_granule st u =
      { keep_urls := assoc_update st.keep_urls (granule_id u)
          ((group.filter fun f => decide (f ∉ group.filter (fun f => remove_cond u f))) ++ [u]),
        skipped := st.skipped ++ group.filter (fun f => remove_cond u f) } := by
  unfold process_granule
  rw [hlk]
  simp [hany, hrem]

/-! ## Invariant preservation -/

theorem good_init : GoodState dedup_init := by
  constructor <;> simp [dedup_init, keys]

/-- `remove_cond` depends on the kept granule only through its processing dates. -/
theorem remove_cond_congr {u f f' : Granule} (h1 : f.proc1 = f'.proc1)
    (h2 : f.proc2 = f'.proc2) : remove_cond u f = remove_cond u f' := by
  simp [remove_cond, h1, h2]

theorem good_step {st : DedupState} (h : GoodState st) (u : Granule) :
    GoodState (process_granule st u) := by
  cases hlk : assoc_lookup st.keep_urls (granule_id u) with
  | none =>
      have hfr : granule_id u ∉ keys st.keep_urls := assoc_lookup_eq_none.1 hlk
      rw [process_granule_new hlk]
      refine ⟨?_, ?_, ?_, ?_⟩
      · intro p hp g hg
        rcases List.mem_append.1 hp with hp | hp
        · exact h.key_mem p hp g hg
        · simp at hp
          subst hp
          simp at hg
          subst hg
          rfl
      · rw [keys_append]
        refine List.Nodup.append h.nodup (by simp [keys]) ?_
        intro a ha hb
        simp [keys] at hb
        subst hb
        exact hfr ha
      · intro p hp g hg f hf
        rcases List.mem_append.1 hp with hp | hp
        · exact h.homog p hp g hg f hf
        · simp at hp
          subst hp
          simp at hg hf
          subst hg
          subst hf
          exact ⟨rfl, rfl⟩
      · intro p hp
        rcases List.mem_append.1 hp with hp | hp
        · exact h.nonnil p hp
        · simp at hp
          subst hp
          simp
  | some group =>
      have hmem : (granule_id u, group) ∈ st.keep_urls := assoc_lookup_mem hlk
      have hkeyg : ∀ g ∈ group, granule_id g = granule_id u := fun g hg => h.key_mem _ hmem g hg
      have hhom := h.homog _ hmem
      by_cases hany : group.any (fun f => same_proc u f) = true
      · -- identical-processing-dates branch
        rw [process_granule_same hlk hany]
        obtain ⟨f0, hf0, hsp⟩ := List.any_eq_true.1 hany
        have huproc : ∀ g ∈ group, g.proc1 = u.proc1 ∧ g.proc2 = u.proc2 := by
          intro g hg
          have hgf0 := hhom g hg f0 hf0
          simp [same_proc] at hsp
          exact ⟨hgf0.1.trans hsp.1.symm, hgf0.2.trans hsp.2.symm⟩
        refine ⟨?_, ?_, ?_, ?_⟩
        · intro p hp g hg
          rcases assoc_update_mem hp with hp | hp
          · exact h.key_mem p hp g hg
          · subst hp
            rcases List.mem_append.1 hg with hg | hg
            · exact hkeyg g hg
            · simp at hg; subst hg; rfl
        · rw [keys_assoc_update]; exact h.nodup
        · intro p hp g hg f hf
          rcases assoc_update_mem hp with hp | hp
          · exact h.homog p hp g hg f hf
          · subst hp
            have hg' : g.proc1 = u.proc1 ∧ g.proc2 = u.proc2 := by
              rcases List.mem_append.1 hg with hg | hg
              · exact huproc g hg
              · simp at hg; subst hg; exact ⟨rfl, rfl⟩
            have hf' : f.proc1 = u.proc1 ∧ f.proc2 = u.proc2 := by
              rcases List.mem_append.1 hf with hf | hf
              · exact huproc f hf
              · simp at hf; subst hf; exact ⟨rfl, rfl⟩
            exact ⟨hg'.1.trans hf'.1.symm, hg'.2.trans hf'.2.symm⟩
        · intro p hp
          rcases assoc_update_mem hp with hp | hp
          · exact h.nonnil p hp
          · subst hp; simp
      · have hany' : group.any (fun f => same_proc u f) = false := by
          simpa using hany
        by_cases hrem : group.filter (fun f => remove_cond u f) = []
        · -- incoming granule is skipped; keep_urls unchanged
          rw [process_granule_skip hlk hany' hrem]
          exact ⟨h.key_mem, h.nodup, h.homog, h.nonnil⟩
        · -- replacement branch: all group members share processing dates, so the
          -- nonempty removal set is the whole group and only `u` survives
          rw [process_granule_replace_eq hlk hany' hrem]
          obtain ⟨f0, hf0⟩ := List.exists_mem_of_ne_nil _ hrem
          have hf0g : f0 ∈ group := (List.mem_filter.1 hf0).1
          have hf0c : remove_cond u f0 = true := by
            simpa using (List.mem_filter.1 hf0).2
          have hall : ∀ f ∈ group, remove_cond u f = true := by
            intro f hf
            have hp := hhom f hf f0 hf0g
            rw [remove_cond_congr hp.1 hp.2]
            exact hf0c
          have hsurv : (group.filter fun f =>
              decide (f ∉ group.filter (fun f => remove_cond u f))) = [] := by
            rw [List.filter_eq_nil_iff]
            intro f hf
            simp only [decide_eq_true_eq, Decidable.not_not]
            exact List.mem_filter.2 ⟨hf, hall f hf⟩
          rw [hsurv]
          refine ⟨?_, ?_, ?_, ?_⟩
          · intro p hp g hg
            rcases assoc_update_mem hp with hp | hp
            · exact h.key_mem p hp g hg
            · subst hp
              simp at hg
              subst hg
              rfl
          · rw [keys_assoc_update]; exact h.nodup
          · intro p hp g hg f hf
            rcases assoc_update_mem hp with hp | hp
            · exact h.homog p hp g hg f hf
            · subst hp
              simp at hg hf
              subst hg
              subst hf
              exact ⟨rfl, rfl⟩
          · intro p hp
            rcases assoc_update_mem hp with hp | hp
            · exact h.nonnil p hp
            · subst hp; simp

/-- The invariant holds after processing any granule list. -/
theorem good_fold (urls : List Granule) : GoodState (urls.foldl process_granule dedup_init) := by
  have : ∀ (l : List Granule) (st : DedupState), GoodState st →
      GoodState (l.foldl process_granule st) := by
    intro l
    induction l with
    | nil => intro st h; exact h
    | cons a l ih => intro st h; exact ih _ (good_step h a)
  exact this urls dedup_init good_init

/-! ## Replaying the output of deduplication (for idempotence) -/

/-- Feeding further members of an already-created group (same key, identical
processing dates) back into the loop appends each of them through the
identical-processing-dates branch. -/
theorem replay_members (k : GranuleId) (p1 p2 : Nat) :
    ∀ (l m : List Granule) (st : DedupState),
      m ≠ [] →
      (∀ g ∈ m, g.proc1 = p1 ∧ g.proc2 = p2) →
      (∀ g ∈ l, granule_id g = k ∧ g.proc1 = p1 ∧ g.proc2 = p2) →
      k ∉ keys st.keep_urls →
      List.foldl process_granule ⟨st.keep_urls ++ [(k, m)], st.skipped⟩ l
        = ⟨st.keep_urls ++ [(k, m ++ l)], st.skipped⟩ := by
  intro l
  induction l with
  | nil =>
      intro m st _ _ _ _
      simp
  | cons u l ih =>
      intro m st hm hmp hlp hk
      have hu := hlp u (List.mem_cons_self u l)
      have hlk : assoc_lookup (DedupState.keep_urls ⟨st.keep_urls ++ [(k, m)], st.skipped⟩)
          (granule_id u) = some m := by
        rw [hu.1]
        exact assoc_lookup_append_fresh hk m
      have hany : m.any (fun f => same_proc u f) = true := by
        obtain ⟨g0, hg0⟩ := List.exists_mem_of_ne_nil m hm
        refine List.any_eq_true.2 ⟨g0, hg0, ?_⟩
        have hg0p := hmp g0 hg0
        simp [same_proc, hu.2.1, hu.2.2, hg0p.1, hg0p.2]
      rw [List.foldl_cons, process_granule_same hlk hany]
      have hupd : assoc_update (st.keep_urls ++ [(k, m)]) (granule_id u) (m ++ [u])
          = st.keep_urls ++ [(k, m ++ [u])] := by
        rw [hu.1]
        exact assoc_update_append_fresh hk m (m ++ [u])
      simp only [hupd]
      have := ih (m ++ [u]) st (by simp)
        (by
          intro g hg
          rcases List.mem_append.1 hg with hg | hg
          · exact hmp g hg
          · simp at hg; subst hg; exact ⟨hu.2.1, hu.2.2⟩)
        (fun g hg => hlp g (List.mem_cons_of_mem _ hg)) hk
      rw [this]
      simp

/-- Feeding one whole group of the deduplication output back into the loop
recreates exactly that group. -/
theorem replay_group (k : GranuleId) (l : List Granule) (st : DedupState)
    (hl : l ≠ [])
    (hkey : ∀ g ∈ l, granule_id g = k)
    (hhom : ∀ g ∈ l, ∀ f ∈ l, g.proc1 = f.proc1 ∧ g.proc2 = f.proc2)
    (hk : k ∉ keys st.keep_urls) :
    List.foldl process_granule st l = ⟨st.keep_urls ++ [(k, l)], st.skipped⟩ := by
  cases l with
  | nil => exact absurd rfl hl
  | cons g l' =>
      have hgk : granule_id g = k := hkey g (List.mem_cons_self g l')
      have hlkn : assoc_lookup st.keep_urls (granule_id g) = none := by
        rw [hgk]
        exact assoc_lookup_eq_none.2 hk
      rw [List.foldl_cons, process_granule_new hlkn]
      have := replay_members k g.proc1 g.proc2 l' [g] st (by simp)
        (by intro x hx; simp at hx; subst hx; exact ⟨rfl, rfl⟩)
        (by
          intro x hx
          refine ⟨hkey x (List.mem_cons_of_mem _ hx), ?_⟩
          exact hhom x (List.mem_cons_of_mem _ hx) g (List.mem_cons_self g l'))
        hk
      rw [hgk] at *
      simpa using this

/-- Feeding the whole deduplication output back into the loop recreates the
`keep_urls` dict and skips nothing. -/
theorem replay_all :
    ∀ (rest : KeepUrls) (st : DedupState),
      (keys st.keep_urls ++ keys rest).Nodup →
      (∀ p ∈ rest, ∀ g ∈ p.2, granule_id g = p.1) →
      (∀ p ∈ rest, ∀ g ∈ p.2, ∀ f ∈ p.2, g.proc1 = f.proc1 ∧ g.proc2 = f.proc2) →
      (∀ p ∈ rest, p.2 ≠ []) →
      List.foldl process_granule st ((rest.map Prod.snd).flatten)
        = ⟨st.keep_urls ++ rest, st.skipped⟩ := by
  intro rest
  induction rest with
  | nil =>
      intro st _ _ _ _
      simp
  | cons p rest ih =>
      obtain ⟨k, l⟩ := p
      intro st hnd hkey hhom hnn
      have hl : l ≠ [] := hnn (k, l) (List.mem_cons_self _ _)
      rw [List.map_cons, List.flatten_cons, List.foldl_append]
      have hkfresh : k ∉ keys st.keep_urls := by
        intro hc
        have hdisj := (List.nodup_append.1 hnd).2.2
        exact hdisj hc (by simp [keys])
      rw [replay_group k l st hl
        (fun g hg => hkey (k, l) (List.mem_cons_self _ _) g hg)
        (hhom (k, l) (List.mem_cons_self _ _)) hkfresh]
      have hrec := ih ⟨st.keep_urls ++ [(k, l)], st.skipped⟩
        (by
          have : keys (st.keep_urls ++ [(k, l)]) ++ keys rest
              = keys st.keep_urls ++ keys ((k, l) :: rest) := by
            simp [keys]
          rw [this]
          exact hnd)
        (fun p hp => hkey p (List.mem_cons_of_mem _ hp))
        (fun p hp => hhom p (List.mem_cons_of_mem _ hp))
        (fun p hp => hnn p (List.mem_cons_of_mem _ hp))
      rw [hrec]
      simp

/-- C2: Granule deduplication is idempotent: applying
`skip_duplicate_granules` to its own kept-granules output returns that output
unchanged, and records no element of it as a duplicate rejection
(`skipped_double_granules` stays empty). -/
theorem C2_skip_duplicate_granules_idempotent (found_urls : List Granule) :
    skip_duplicate_granules (skip_duplicate_granules found_urls).1
      = ((skip_duplicate_granules found_urls).1, []) := by
  have hg := good_fold found_urls
  have hre := replay_all (found_urls.foldl process_granule dedup_init).keep_urls dedup_init
    (by simpa [dedup_init, keys] using hg.nodup) hg.key_mem hg.homog hg.nonnil
  simp only [skip_duplicate_granules]
  rw [hre]
  simp [dedup_init]

/-- C3: in the replacement situation (the incoming granule's key already has a
group, no kept member has identical processing dates, and at least one kept
member satisfies the removal condition), the incoming identifier replaces
exactly those currently-kept identifiers of its group whose both processing
dates are `≤` its own, or whose first processing date is strictly older
(`remove_cond`); the replaced identifiers are appended to
`skipped_double_granules` and the incoming identifier is kept at the end of the
group. -/
theorem C3_replacement_rule (st : DedupState) (u : Granule) (group : List Granule)
    (hg : assoc_lookup st.keep_urls (granule_id u) = some group)
    (hid : ∀ f ∈ group, same_proc u f = false)
    (hrem : ∃ f ∈ group, remove_cond u f = true) :
    process_granule st u =
      ⟨assoc_update st.keep_urls (granule_id u)
          ((group.filter fun f => !(remove_cond u f)) ++ [u]),
        st.skipped ++ group.filter (fun f => remove_cond u f)⟩ := by
  have hany : group.any (fun f => same_proc u f) = false := by
    rw [List.any_eq_false]
    intro f hf
    simp [hid f hf]
  have hremne : group.filter (fun f => remove_cond u f) ≠ [] := by
    obtain ⟨f, hf, hc⟩ := hrem
    intro hnil
    have hmem : f ∈ group.filter (fun f => remove_cond u f) := List.mem_filter.2 ⟨hf, hc⟩
    rw [hnil] at hmem
    simp at hmem
  rw [process_granule_replace_eq hg hany hremne]
  have hfil : (group.filter fun f => decide (f ∉ group.filter (fun f => remove_cond u f)))
      = group.filter fun f => !(remove_cond u f) := by
    apply List.filter_congr
    intro f hf
    by_cases hc : remove_cond u f
    · simp [hc, List.mem_filter, hf]
    · simp [hc, List.mem_filter]
  rw [hfil]

/-- Witness for C3 at a concrete state: `w_new` replaces `w_old`. -/
theorem C3_replacement_rule_witness :
    process_granule w_state w_new =
      ⟨assoc_update w_state.keep_urls (granule_id w_new)
          (([w_old].filter fun f => !(remove_cond w_new f)) ++ [w_new]),
        w_state.skipped ++ [w_old].filter (fun f => remove_cond w_new f)⟩ :=
  C3_replacement_rule w_state w_new [w_old] (by decide) (by decide) (by decide)

/-! ## Per-key projection of the deduplication loop -/

theorem group_of_step_same {st : DedupState} (h : GoodState st) (u : Granule) :
    group_of (process_granule st u) (granule_id u)
      = (step_group (group_of st (granule_id u)) u).1 := by
  cases hlk : assoc_lookup st.keep_urls (granule_id u) with
  | none =>
      have hfr : granule_id u ∉ keys st.keep_urls := assoc_lookup_eq_none.1 hlk
      rw [process_granule_new hlk]
      simp only [group_of, hlk, Option.getD_none, step_group, List.isEmpty_nil, if_true]
      rw [assoc_lookup_append_fresh hfr]
      rfl
  | some group =>
      have hmem : (granule_id u, group) ∈ st.keep_urls := assoc_lookup_mem hlk
      have hne : group ≠ [] := h.nonnil _ hmem
      have hnemp : group.isEmpty = false := by
        cases group with
        | nil => exact absurd rfl hne
        | cons a l => rfl
      simp only [group_of, hlk, Option.getD_some, step_group, hnemp, Bool.false_eq_true,
        if_false]
      by_cases hany : group.any (fun f => same_proc u f) = true
      · rw [process_granule_same hlk hany]
        simp only [hany, if_true]
        rw [assoc_lookup_update_self hlk]
        rfl
      · have hany' : group.any (fun f => same_proc u f) = false := by simpa using hany
        simp only [hany', Bool.false_eq_true, if_false]
        by_cases hrem : group.filter (fun f => remove_cond u f) = []
        · rw [process_granule_skip hlk hany' hrem]
          simp only [hrem, List.isEmpty_nil, if_true]
          simp [group_of, hlk]
        · have hremb : (group.filter (fun f => remove_cond u f)).isEmpty = false := by
            cases hfe : group.filter (fun f => remove_cond u f) with
            | nil => exact absurd hfe hrem
            | cons a l => rfl
          rw [process_granule_replace_eq hlk hany' hrem]
          simp only [hremb, Bool.false_eq_true, if_false]
          rw [assoc_lookup_update_self hlk]
          rfl

theorem group_of_step_other {st : DedupState} {k : GranuleId} {u : Granule}
    (hk : k ≠ granule_id u) :
    group_of (process_granule st u) k = group_of st k := by
  cases hlk : assoc_lookup st.keep_urls (granule_id u) with
  | none =>
      rw [process_granule_new hlk]
      simp only [group_of]
      cases hk2 : assoc_lookup st.keep_urls k with
      | none =>
          rw [assoc_lookup_append_none hk2]
          have hne : granule_id u ≠ k := fun h => hk h.symm
          simp [assoc_lookup, hne, hk2]
      | some v =>
          simp [assoc_lookup_append_some hk2, hk2]
  | some group =>
      by_cases hany : group.any (fun f => same_proc u f) = true
      · rw [process_granule_same hlk hany]
        simp only [group_of]
        rw [assoc_lookup_update_other (fun h => hk h.symm)]
      · have hany' : group.any (fun f => same_proc u f) = false := by simpa using hany
        by_cases hrem : group.filter (fun f => remove_cond u f) = []
        · rw [process_granule_skip hlk hany' hrem]
          simp [group_of]
        · rw [process_granule_replace_eq hlk hany' hrem]
          simp only [group_of]
          rw [assoc_lookup_update_other (fun h => hk h.symm)]

theorem skipped_step {st : DedupState} (h : GoodState st) (u : Granule) :
    (process_granule st u).skipped
      = st.skipped ++ (step_group (group_of st (granule_id u)) u).2 := by
  cases hlk : assoc_lookup st.keep_urls (granule_id u) with
  | none =>
      rw [process_granule_new hlk]
      simp [group_of, hlk, step_group]
  | some group =>
      have hmem : (granule_id u, group) ∈ st.keep_urls := assoc_lookup_mem hlk
      have hne : group ≠ [] := h.nonnil _ hmem
      have hnemp : group.isEmpty = false := by
        cases group with
        | nil => exact absurd rfl hne
        | cons a l => rfl
      simp only [group_of, hlk, Option.getD_some, step_group, hnemp, Bool.false_eq_true,
        if_false]
      by_cases hany : group.any (fun f => same_proc u f) = true
      · rw [process_granule_same hlk hany]
        simp [hany]
      · have hany' : group.any (fun f => same_proc u f) = false := by simpa using hany
        simp only [hany', Bool.false_eq_true, if_false]
        by_cases hrem : group.filter (fun f => remove_cond u f) = []
        · rw [process_granule_skip hlk hany' hrem]
          simp [hrem]
        · have hremb : (group.filter (fun f => remove_cond u f)).isEmpty = false := by
            cases hfe : group.filter (fun f => remove_cond u f) with
            | nil => exact absurd hfe hrem
            | cons a l => rfl
          rw [process_granule_replace_eq hlk hany' hrem]
          simp [hremb]

theorem step_delta_key {st : DedupState} (h : GoodState st) (u : Granule) :
    ∀ g ∈ (step_group (group_of st (granule_id u)) u).2, granule_id g = granule_id u := by
  cases hlk : assoc_lookup st.keep_urls (granule_id u) with
  | none =>
      simp [group_of, hlk, step_group]
  | some group =>
      have hmem : (granule_id u, group) ∈ st.keep_urls := assoc_lookup_mem hlk
      have hne : group ≠ [] := h.nonnil _ hmem
      have hkeyg : ∀ g ∈ group, granule_id g = granule_id u := fun g hg =>
        h.key_mem _ hmem g hg
      have hnemp : group.isEmpty = false := by
        cases group with
        | nil => exact absurd rfl hne
        | cons a l => rfl
      simp only [group_of, hlk, Option.getD_some, step_group, hnemp, Bool.false_eq_true,
        if_false]
      by_cases hany : group.any (fun f => same_proc u f) = true
      · simp [hany]
      · have hany' : group.any (fun f => same_proc u f) = false := by simpa using hany
        simp only [hany', Bool.false_eq_true, if_false]
        by_cases hrem : group.filter (fun f => remove_cond u f) = []
        · simp [hrem]
        · have hremb : (group.filter (fun f => remove_cond u f)).isEmpty = false := by
            cases hfe : group.filter (fun f => remove_cond u f) with
            | nil => exact absurd hfe hrem
            | cons a l => rfl
          simp only [hremb, Bool.false_eq_true, if_false]
          intro g hg
          exact hkeyg g (List.mem_filter.1 hg).1

theorem per_key_foldl_acc (l : List Granule) :
    ∀ (gl sk : List Granule),
      l.foldl per_key_step (gl, sk)
        = ((per_key_from gl l).1, sk ++ (per_key_from gl l).2) := by
  induction l with
  | nil =>
      intro gl sk
      simp [per_key_from]
  | cons u l ih =>
      intro gl sk
      rw [List.foldl_cons]
      rw [show per_key_step (gl, sk) u
        = ((step_group gl u).1, sk ++ (step_group gl u).2) from rfl]
      rw [ih]
      have h2 : per_key_from gl (u :: l)
          = ((per_key_from (step_group gl u).1 l).1,
             (step_group gl u).2 ++ (per_key_from (step_group gl u).1 l).2) := by
        unfold per_key_from
        rw [List.foldl_cons]
        rw [show per_key_step (gl, []) u
          = ((step_group gl u).1, [] ++ (step_group gl u).2) from rfl]
        simp only [List.nil_append]
        exact ih (step_group gl u).1 (step_group gl u).2
      rw [h2]
      simp [List.append_assoc]

/-- Projection of the full loop onto one key: the kept group for `k` and the
key-`k` part of `skipped_double_granules` are computed by running the loop on
just the key-`k` subsequence of the input. -/
theorem fold_project (l : List Granule) :
    ∀ (st : DedupState) (k : GranuleId), GoodState st →
      group_of (l.foldl process_granule st) k
          = (per_key_from (group_of st k) (filter_key k l)).1
        ∧ filter_key k (l.foldl process_granule st).skipped
          = filter_key k st.skipped ++ (per_key_from (group_of st k) (filter_key k l)).2 := by
  induction l with
  | nil =>
      intro st k _
      simp [per_key_from, filter_key]
  | cons u l ih =>
      intro st k hg
      have hg' := good_step hg u
      by_cases hk : granule_id u = k
      · subst hk
        have hcons : filter_key (granule_id u) (u :: l)
            = u :: filter_key (granule_id u) l := by
          simp [filter_key]
        rw [List.foldl_cons, hcons]
        have h2 : per_key_from (group_of st (granule_id u))
              (u :: filter_key (granule_id u) l)
            = ((per_key_from (step_group (group_of st (granule_id u)) u).1
                  (filter_key (granule_id u) l)).1,
               (step_group (group_of st (granule_id u)) u).2
                 ++ (per_key_from (step_group (group_of st (granule_id u)) u).1
                      (filter_key (granule_id u) l)).2) := by
          unfold per_key_from
          rw [List.foldl_cons]
          rw [show per_key_step (group_of st (granule_id u), []) u
            = ((step_group (group_of st (granule_id u)) u).1,
               [] ++ (step_group (group_of st (granule_id u)) u).2) from rfl]
          simp only [List.nil_append]
          exact per_key_foldl_acc _ _ _
        rw [h2]
        obtain ⟨ihg, ihs⟩ := ih (process_granule st u) (granule_id u) hg'
        refine ⟨?_, ?_⟩
        · rw [ihg, group_of_step_same hg u]
        · rw [ihs, group_of_step_same hg u]
          have hsk : filter_key (granule_id u) (process_granule st u).skipped
              = filter_key (granule_id u) st.skipped
                ++ (step_group (group_of st (granule_id u)) u).2 := by
            rw [skipped_step hg u]
            unfold filter_key
            rw [List.filter_append]
            congr 1
            apply List.filter_eq_self.2
            intro g hgm
            simpa using step_delta_key hg u g hgm
          rw [hsk]
          simp [List.append_assoc]
      · have hcons : filter_key k (u :: l) = filter_key k l := by
          simp [filter_key, hk]
        rw [List.foldl_cons, hcons]
        obtain ⟨ihg, ihs⟩ := ih (process_granule st u) k hg'
        have hgrp := @group_of_step_other st k u (fun h => hk h.symm)
        refine ⟨?_, ?_⟩
        · rw [ihg, hgrp]
        · rw [ihs, hgrp]
          have hsk : filter_key k (process_granule st u).skipped
              = filter_key k st.skipped := by
            rw [skipped_step hg u]
            unfold filter_key
            rw [List.filter_append]
            have : (step_group (group_of st (granule_id u)) u).2.filter
                (fun g => decide (granule_id g = k)) = [] := by
              rw [List.filter_eq_nil_iff]
              intro g hgm
              have := step_delta_key hg u g hgm
              simp [this, hk]
            rw [this]
            simp
          rw [hsk]

/-- With distinct keys and key-consistent groups, filtering the flattened
output by a key recovers exactly that key's group. -/
theorem flatten_filter_key :
    ∀ (ks : KeepUrls) (k : GranuleId),
      (∀ p ∈ ks, ∀ g ∈ p.2, granule_id g = p.1) →
      (keys ks).Nodup →
      filter_key k ((ks.map Prod.snd).flatten) = (assoc_lookup ks k).getD [] := by
  intro ks
  induction ks with
  | nil =>
      intro k _ _
      simp [filter_key, assoc_lookup]
  | cons p rest ih =>
      obtain ⟨k', l⟩ := p
      intro k hkey hnd
      have hkeyl : ∀ g ∈ l, granule_id g = k' := fun g hg =>
        hkey (k', l) (List.mem_cons_self _ _) g hg
      have hkeyr : ∀ p ∈ rest, ∀ g ∈ p.2, granule_id g = p.1 := fun p hp =>
        hkey p (List.mem_cons_of_mem _ hp)
      have hndc : (k' :: keys rest).Nodup := by simpa [keys] using hnd
      have hndr : (keys rest).Nodup := (List.nodup_cons.1 hndc).2
      have hknr : k' ∉ keys rest := (List.nodup_cons.1 hndc).1
      rw [List.map_cons, List.flatten_cons]
      unfold filter_key
      rw [List.filter_append]
      by_cases hk : k' = k
      · subst hk
        have hfl : l.filter (fun g => decide (granule_id g = k')) = l := by
          apply List.filter_eq_self.2
          intro g hg
          simp [hkeyl g hg]
        have hfr : (assoc_lookup rest k').getD [] = [] := by
          rw [assoc_lookup_eq_none.2 hknr]
          rfl
        have hrest := ih k' hkeyr hndr
        unfold filter_key at hrest
        rw [hfl, hrest, hfr]
        simp [assoc_lookup]
      · have hfl : l.filter (fun g => decide (granule_id g = k)) = [] := by
          rw [List.filter_eq_nil_iff]
          intro g hg
          simp [hkeyl g hg, hk]
        have hrest := ih k hkeyr hndr
        unfold filter_key at hrest
        rw [hfl, hrest]
        simp [assoc_lookup, hk]

/-- Counterexample to C4 as stated: `w_new` and `w_old` share a key, `w_new`'s
processing dates dominate `w_old`'s and are not both equal, yet for the input
`[w_newer, w_new, w_old]` (which contains both) `w_new` is NOT retained — a
third candidate with even newer processing dates evicts it. -/
theorem C4_counterexample :
    granule_id w_new = granule_id w_old
      ∧ w_old.proc1 ≤ w_new.proc1 ∧ w_old.proc2 ≤ w_new.proc2
      ∧ ¬(w_new.proc1 = w_old.proc1 ∧ w_new.proc2 = w_old.proc2)
      ∧ w_new ∉ (skip_duplicate_granules [w_newer, w_new, w_old]).1 := by
  decide

/-- C4 (amended): for every input sequence whose candidates with the shared
physical-pair key are exactly `A` and `B` (in either order), where both of
`A`'s processing dates are `≥` `B`'s and the two date pairs are not both
equal, deduplication discards `B`, retains `A`, and records `B` in
`skipped_double_granules`. -/
theorem C4_dominating_candidate_retained (urls : List Granule) (A B : Granule)
    (hkey : granule_id B = granule_id A)
    (h1 : B.proc1 ≤ A.proc1) (h2 : B.proc2 ≤ A.proc2)
    (hne : ¬(A.proc1 = B.proc1 ∧ A.proc2 = B.proc2))
    (hf : filter_key (granule_id A) urls = [A, B]
        ∨ filter_key (granule_id A) urls = [B, A]) :
    A ∈ (skip_duplicate_granules urls).1
      ∧ B ∉ (skip_duplicate_granules urls).1
      ∧ B ∈ (skip_duplicate_granules urls).2 := by
  have hg := good_fold urls
  have hspBA : same_proc B A = false := by
    rcases eq_or_ne A.proc1 B.proc1 with hq | hq
    · have hq2 : ¬ B.proc2 = A.proc2 := fun hh => hne ⟨hq, hh.symm⟩
      simp [same_proc, hq, hq2]
    · have hq' : ¬ B.proc1 = A.proc1 := fun hh => hq hh.symm
      simp [same_proc, hq']
  have hrcBA : remove_cond B A = false := by
    unfold remove_cond
    have hx : ¬ A.proc1 < B.proc1 := by omega
    by_cases hq : A.proc1 ≤ B.proc1
    · have hq1 : A.proc1 = B.proc1 := le_antisymm hq h1
      have hq2 : ¬ A.proc2 ≤ B.proc2 := fun hh => hne ⟨hq1, le_antisymm hh h2⟩
      simp [hq, hq2, hx]
    · simp [hq, hx]
  have hspAB : same_proc A B = false := by
    rcases eq_or_ne A.proc1 B.proc1 with hq | hq
    · have hq2 : A.proc2 ≠ B.proc2 := fun hh => hne ⟨hq, hh⟩
      simp [same_proc, hq, hq2]
    · simp [same_proc, hq]
  have hrcAB : remove_cond A B = true := by
    unfold remove_cond
    simp [h1, h2]
  have hAB : per_key_from [] [A, B] = ([A], [B]) := by
    simp [per_key_from, per_key_step, step_group, hspBA, hrcBA]
  have hBA : per_key_from [] [B, A] = ([A], [B]) := by
    simp [per_key_from, per_key_step, step_group, hspAB, hrcAB]
  obtain ⟨hgrp, hskp⟩ := fold_project urls dedup_init (granule_id A) good_init
  have hgrpv : group_of (urls.foldl process_granule dedup_init) (granule_id A) = [A] := by
    rw [hgrp]
    rcases hf with hf | hf <;> rw [hf]
    · rw [show group_of dedup_init (granule_id A) = [] from rfl, hAB]
    · rw [show group_of dedup_init (granule_id A) = [] from rfl, hBA]
  have hskpv : filter_key (granule_id A)
      (urls.foldl process_granule dedup_init).skipped = [B] := by
    rw [hskp]
    rcases hf with hf | hf <;> rw [hf]
    · rw [show group_of dedup_init (granule_id A) = [] from rfl, hAB]
      rfl
    · rw [show group_of dedup_init (granule_id A) = [] from rfl, hBA]
      rfl
  have hout : filter_key (granule_id A)
      (((urls.foldl process_granule dedup_init).keep_urls.map Prod.snd).flatten) = [A] := by
    rw [flatten_filter_key _ _ hg.key_mem hg.nodup]
    exact hgrpv
  simp only [skip_duplicate_granules]
  refine ⟨?_, ?_, ?_⟩
  · have hAmem : A ∈ filter_key (granule_id A)
        (((urls.foldl process_granule dedup_init).keep_urls.map Prod.snd).flatten) := by
      rw [hout]
      exact List.mem_cons_self _ _
    exact List.mem_of_mem_filter hAmem
  · intro hB
    have hBmem : B ∈ filter_key (granule_id A)
        (((urls.foldl process_granule dedup_init).keep_urls.map Prod.snd).flatten) :=
      List.mem_filter.2 ⟨hB, by simp [hkey]⟩
    rw [hout] at hBmem
    have hBA' : B = A := by simpa using hBmem
    exact hne ⟨by rw [hBA'], by rw [hBA']⟩
  · have hBmem : B ∈ filter_key (granule_id A)
        (urls.foldl process_granule dedup_init).skipped := by
      rw [hskpv]
      exact List.mem_cons_self _ _
    exact List.mem_of_mem_filter hBmem

/-- Witness for C4 (amended) at concrete granules, with an unrelated-key
granule interleaved. -/
theorem C4_dominating_candidate_retained_witness :
    w_new ∈ (skip_duplicate_granules [w_old, w_other, w_new]).1
      ∧ w_old ∉ (skip_duplicate_granules [w_old, w_other, w_new]).1
      ∧ w_old ∈ (skip_duplicate_granules [w_old, w_other, w_new]).2 :=
  C4_dominating_candidate_retained [w_old, w_other, w_new] w_new w_old
    (by decide) (by decide) (by decide) (by decide) (by decide)

/-- Counterexample to C5 as stated: `w_old` and `w_twin` share a key and have
exactly equal processing dates on both images, yet for the input
`[w_old, w_twin, w_newer]` (which contains both) neither is retained — a later
candidate with newer processing dates evicts both. -/
theorem C5_counterexample :
    granule_id w_twin = granule_id w_old
      ∧ w_old.proc1 = w_twin.proc1 ∧ w_old.proc2 = w_twin.proc2
      ∧ w_old ∉ (skip_duplicate_granules [w_old, w_twin, w_newer]).1
      ∧ w_twin ∉ (skip_duplicate_granules [w_old, w_twin, w_newer]).1 := by
  decide

/-- C5 (amended): for every input sequence whose candidates with the shared
physical-pair key are exactly the two identifiers `A` and `B` (in either
order), where `A` and `B` have exactly equal processing dates on both images,
deduplication retains both. -/
theorem C5_identical_dates_both_kept (urls : List Granule) (A B : Granule)
    (hkey : granule_id B = granule_id A)
    (hp1 : A.proc1 = B.proc1) (hp2 : A.proc2 = B.proc2)
    (hf : filter_key (granule_id A) urls = [A, B]
        ∨ filter_key (granule_id A) urls = [B, A]) :
    A ∈ (skip_duplicate_granules urls).1 ∧ B ∈ (skip_duplicate_granules urls).1 := by
  have hg := good_fold urls
  have hspBA : same_proc B A = true := by
    simp [same_proc, hp1, hp2]
  have hspAB : same_proc A B = true := by
    simp [same_proc, hp1, hp2]
  have hAB : per_key_from [] [A, B] = ([A, B], []) := by
    simp [per_key_from, per_key_step, step_group, hspBA]
  have hBA : per_key_from [] [B, A] = ([B, A], []) := by
    simp [per_key_from, per_key_step, step_group, hspAB]
  obtain ⟨hgrp, _⟩ := fold_project urls dedup_init (granule_id A) good_init
  have hgrpv : group_of (urls.foldl process_granule dedup_init) (granule_id A) = [A, B]
      ∨ group_of (urls.foldl process_granule dedup_init) (granule_id A) = [B, A] := by
    rcases hf with hf | hf
    · left
      rw [hgrp, hf, show group_of dedup_init (granule_id A) = [] from rfl, hAB]
    · right
      rw [hgrp, hf, show group_of dedup_init (granule_id A) = [] from rfl, hBA]
  have hout := flatten_filter_key
    (urls.foldl process_granule dedup_init).keep_urls (granule_id A) hg.key_mem hg.nodup
  simp only [skip_duplicate_granules]
  rcases hgrpv with hgv | hgv
  · rw [show ((assoc_lookup (urls.foldl process_granule dedup_init).keep_urls
        (granule_id A)).getD []) = group_of (urls.foldl process_granule dedup_init)
        (granule_id A) from rfl, hgv] at hout
    constructor
    · have hA : A ∈ filter_key (granule_id A)
          (((urls.foldl process_granule dedup_init).keep_urls.map Prod.snd).flatten) := by
        rw [hout]
        exact List.mem_cons_self _ _
      exact List.mem_of_mem_filter hA
    · have hB : B ∈ filter_key (granule_id A)
          (((urls.foldl process_granule dedup_init).keep_urls.map Prod.snd).flatten) := by
        rw [hout]
        simp
      exact List.mem_of_mem_filter hB
  · rw [show ((assoc_lookup (urls.foldl process_granule dedup_init).keep_urls
        (granule_id A)).getD []) = group_of (urls.foldl process_granule dedup_init)
        (granule_id A) from rfl, hgv] at hout
    constructor
    · have hA : A ∈ filter_key (granule_id A)
          (((urls.foldl process_granule dedup_init).keep_urls.map Prod.snd).flatten) := by
        rw [hout]
        simp
      exact List.mem_of_mem_filter hA
    · have hB : B ∈ filter_key (granule_id A)
          (((urls.foldl process_granule dedup_init).keep_urls.map Prod.snd).flatten) := by
        rw [hout]
        exact List.mem_cons_self _ _
      exact List.mem_of_mem_filter hB

/-- Witness for C5 (amended) at concrete granules. -/
theorem C5_identical_dates_both_kept_witness :
    w_old ∈ (skip_duplicate_granules [w_old, w_other, w_twin]).1
      ∧ w_twin ∈ (skip_duplicate_granules [w_old, w_other, w_twin]).1 :=
  C5_identical_dates_both_kept [w_old, w_other, w_twin] w_old w_twin
    (by decide) (by decide) (by decide) (by decide)

/-! ## Normalization: projection detection (C6) -/

/-- Counterexample to C6 as stated: `utm_only_ds` carries its projection in the
`UTM_Projection` metadata location (one of the three known locations), yet
`preprocess_dataset` raises the unsupported-projection fatal error, because the
code consults only the `mapping` location. -/
theorem C6_counterexample :
    utm_only_ds.utm_projection = some 32628
      ∧ preprocess_dataset cfg_w utm_only_ds 7
          = .error (.unsupported_projection 7) :=
  ⟨rfl, rfl⟩

/-- C6 (amended): `preprocess_dataset` determines the source projection solely
from the `mapping` metadata variable and raises the unsupported-granule fatal
error exactly when `mapping` is absent, regardless of the `UTM_Projection` and
`Polar_Stereographic` locations (their detection branches are commented out in
the source). -/
theorem C6_unsupported_iff_no_mapping (cfg : CubeConfig) (ds : DSModel) (url : Int) :
    preprocess_dataset cfg ds url = .error (.unsupported_projection url)
      ↔ ds.mapping = none := by
  cases hm : ds.mapping with
  | none => simp [preprocess_dataset, hm]
  | some p =>
      rw [iff_iff_implies_and_implies]
      constructor
      · intro h
        exfalso
        simp only [preprocess_dataset, hm] at h
        repeat' (first | (simp at h) | split at h)
      · intro h
        simp at h

/-! ## Batch assembly: empty batch (C10) and frame conditions (C9) -/

/-- C10: invoked on an empty accumulator, `combine_layers` resets the working
`layers` object to an empty dataset and returns without raising, without
writing to the store, and without touching the accumulator sequences, the
rejection logs, or the store's creation state. -/
theorem C10_combine_layers_empty_noop (cfg : CubeConfig) (st : CubeState)
    (store : Store) (is_first_write : Bool) (h : st.dss = []) :
    combine_layers_st cfg st store is_first_write
      = .ok ({ st with layers := some ⟨[], []⟩ }, store) := by
  simp [combine_layers_st, h]

/-- Witness for C10 at a concrete emptied accumulator state. -/
theorem C10_combine_layers_empty_noop_witness :
    combine_layers_st cfg_w (clear_vars w_cube_state) [] true
      = .ok ({ clear_vars w_cube_state with layers := some ⟨[], []⟩ }, []) :=
  C10_combine_layers_empty_noop cfg_w (clear_vars w_cube_state) [] true rfl

/-- C9: writing a nonempty batch (`combine_layers` ending in its `clear_vars`
call) empties the three accumulator sequences and the working layers object
while leaving the three rejection logs unchanged; of the accumulator
operations, `add_layer` only ever appends to a rejection log and only `clear`
(run start) resets the logs. -/
theorem C9_batch_write_frame (cfg : CubeConfig) (st : CubeState) (store : Store)
    (is_first_write : Bool) (hne : st.dss ≠ [])
    (hok : (combine_layers_st cfg st store is_first_write).isOk = true) :
    (cl_state (combine_layers_st cfg st store is_first_write)).dates = []
      ∧ (cl_state (combine_layers_st cfg st store is_first_write)).dss = []
      ∧ (cl_state (combine_layers_st cfg st store is_first_write)).urls = []
      ∧ (cl_state (combine_layers_st cfg st store is_first_write)).layers = none
      ∧ (cl_state (combine_layers_st cfg st store is_first_write)).skipped_empty
          = st.skipped_empty
      ∧ (cl_state (combine_layers_st cfg st store is_first_write)).skipped_proj
          = st.skipped_proj
      ∧ (cl_state (combine_layers_st cfg st store is_first_write)).skipped_double
          = st.skipped_double
      ∧ (∀ r : PreprocessResult,
          (add_layer st r).skipped_double = st.skipped_double
          ∧ ((add_layer st r).skipped_empty = st.skipped_empty
              ∨ (add_layer st r).skipped_empty = st.skipped_empty ++ [r.url])
          ∧ ((add_layer st r).skipped_proj = st.skipped_proj
              ∨ (add_layer st r).skipped_proj
                  = proj_append st.skipped_proj r.projection r.url))
      ∧ (clear st).skipped_empty = [] ∧ (clear st).skipped_proj = []
      ∧ (clear st).skipped_double = [] := by
  have hemp : st.dss.isEmpty = false := by
    cases hd : st.dss with
    | nil => exact absurd hd hne
    | cons a l => rfl
  have hadd : ∀ r : PreprocessResult,
      (add_layer st r).skipped_double = st.skipped_double
      ∧ ((add_layer st r).skipped_empty = st.skipped_empty
          ∨ (add_layer st r).skipped_empty = st.skipped_empty ++ [r.url])
      ∧ ((add_layer st r).skipped_proj = st.skipped_proj
          ∨ (add_layer st r).skipped_proj
              = proj_append st.skipped_proj r.projection r.url) := by
    intro r
    cases hd : r.data with
    | some d => simp [add_layer, hd]
    | none =>
        by_cases he : r.is_empty
        · simp [add_layer, hd, he]
        · simp [add_layer, hd, he]
  unfold combine_layers_st at *
  rw [hemp] at hok ⊢
  simp only [Bool.false_eq_true, if_false] at hok ⊢
  cases hcv : combine_vars cfg is_first_write st.dates st.dss st.urls with
  | error e =>
      rw [hcv] at hok
      simp [Except.isOk, Except.toBool] at hok
  | ok b =>
      simp [cl_state, clear_vars, clear, hadd]

/-- Witness for C9 at a concrete one-record accumulator with earlier
rejections recorded. -/
theorem C9_batch_write_frame_witness :
    (cl_state (combine_layers_st cfg_w w_cube_state [] true)).dates = []
      ∧ (cl_state (combine_layers_st cfg_w w_cube_state [] true)).dss = []
      ∧ (cl_state (combine_layers_st cfg_w w_cube_state [] true)).urls = []
      ∧ (cl_state (combine_layers_st cfg_w w_cube_state [] true)).layers = none
      ∧ (cl_state (combine_layers_st cfg_w w_cube_state [] true)).skipped_empty
          = w_cube_state.skipped_empty
      ∧ (cl_state (combine_layers_st cfg_w w_cube_state [] true)).skipped_proj
          = w_cube_state.skipped_proj
      ∧ (cl_state (combine_layers_st cfg_w w_cube_state [] true)).skipped_double
          = w_cube_state.skipped_double
      ∧ (∀ r : PreprocessResult,
          (add_layer w_cube_state r).skipped_double = w_cube_state.skipped_double
          ∧ ((add_layer w_cube_state r).skipped_empty = w_cube_state.skipped_empty
              ∨ (add_layer w_cube_state r).skipped_empty
                  = w_cube_state.skipped_empty ++ [r.url])
          ∧ ((add_layer w_cube_state r).skipped_proj = w_cube_state.skipped_proj
              ∨ (add_layer w_cube_state r).skipped_proj
                  = proj_append w_cube_state.skipped_proj r.projection r.url))
      ∧ (clear w_cube_state).skipped_empty = [] ∧ (clear w_cube_state).skipped_proj = []
      ∧ (clear w_cube_state).skipped_double = [] :=
  C9_batch_write_frame cfg_w w_cube_state [] true (by decide) (by decide)

/-! ## First-write flag in the parallel driver (C8) -/

/-- C8 (code bug): in the parallel driver, a first chunk whose results are all
rejections writes nothing, yet `is_first_write` is cleared after it
(`if start == 0`), so the first batch actually written to the store goes down
the APPEND path instead of the store-creating path.  Evaluated at the failing
input (batch size 1; first result a wrong-projection rejection, second
accepted): the run writes exactly one batch and its flag is `false`. -/
theorem C8_parallel_first_write_flag_bug :
    (create_parallel_model cfg_w 1 [res_wrong_proj, res_accept]).isOk = true
      ∧ (run_store (create_parallel_model cfg_w 1 [res_wrong_proj, res_accept])).map
          Prod.fst = [false]
      ∧ (run_store (create_parallel_model cfg_w 1 [res_wrong_proj, res_accept])).map
          Prod.fst ≠ [true] := by
  refine ⟨by decide, by decide, by decide⟩

/-! ## Record-axis lengths through schema unification -/

theorem mapME_length {ε α β : Type} {f : α → Except ε β} :
    ∀ {l : List α} {out : List β}, mapME f l = .ok out → out.length = l.length := by
  intro l
  induction l with
  | nil =>
      intro out h
      simp only [mapME, Except.ok.injEq] at h
      rw [← h]
      rfl
  | cons a l ih =>
      intro out h
      simp only [mapME] at h
      split at h
      · simp at h
      · split at h
        · simp at h
        · rename_i b hb rest hrest
          simp only [Except.ok.injEq] at h
          rw [← h]
          simp [ih hrest]

theorem entries_len_ok_append {n : Nat} {es fs : Entries}
    (h1 : entries_len_ok n es) (h2 : entries_len_ok n fs) :
    entries_len_ok n (es ++ fs) := by
  intro p hp
  rcases List.mem_append.1 hp with hp | hp
  · exact h1 p hp
  · exact h2 p hp

theorem entries_len_ok_one {n : Nat} {name : String} {v : CubeVar}
    (h : recordLen v = none ∨ recordLen v = some n) :
    entries_len_ok n [(name, v)] := by
  intro p hp
  simp only [List.mem_singleton] at hp
  rw [hp]
  exact h

theorem recordLen_zip_map {dss : List DSModel} {urls : List Int}
    (f : DSModel × Int → AttrVal) (hu : urls.length = dss.length) :
    recordLen (.record ((dss.zip urls).map f)) = some dss.length := by
  simp [recordLen, List.length_zip, hu]

theorem error_var_entry_len {dss : List DSModel} {urls : List Int}
    {var_name pfx : String} (hu : urls.length = dss.length) :
    recordLen (error_var_entry dss urls var_name pfx).2 = some dss.length := by
  simp [error_var_entry, recordLen, List.length_zip, hu]

theorem shift_var_entry_len {dss : List DSModel} {urls : List Int}
    {var_name attr : String} (hu : urls.length = dss.length) :
    recordLen (shift_var_entry dss urls var_name attr).2 = some dss.length := by
  simp [shift_var_entry, recordLen, List.length_zip, hu]

theorem entries_len_ok_error_vars {dss : List DSModel} {urls : List Int}
    {var_name : String} (hu : urls.length = dss.length) :
    entries_len_ok dss.length
      (v_comp_attrs.map fun pfx => error_var_entry dss urls var_name pfx) := by
  intro p hp
  obtain ⟨pfx, _, hpe⟩ := List.mem_map.1 hp
  right
  rw [← hpe]
  exact error_var_entry_len hu

theorem cond_count_entry_spec {dss : List DSModel} {urls : List Int} {layers : Entries}
    {attr var_name : String} {extra : Bool} {out : Entries}
    (hu : urls.length = dss.length)
    (hok : cond_count_entry dss urls layers attr var_name extra = .ok out) :
    (entries_len_ok dss.length layers → entries_len_ok dss.length out)
      ∧ ∀ e ∈ layers, e ∈ out := by
  unfold cond_count_entry at hok
  split at hok
  · split at hok
    · simp at hok
    · rename_i vals hveq
      simp only [Except.ok.injEq] at hok
      rw [← hok]
      refine ⟨fun hl => entries_len_ok_append hl (entries_len_ok_one (Or.inr ?_)),
        fun e he => List.mem_append_left _ he⟩
      simp [recordLen, mapME_length hveq, List.length_zip, hu]
  · simp only [Except.ok.injEq] at hok
    rw [← hok]
    exact ⟨fun hl => hl, fun e he => he⟩

theorem process_v_attributes_spec {dss : List DSModel} {urls : List Int}
    {layers : Entries} {var_name : String} {out : Entries}
    (hu : urls.length = dss.length)
    (hok : process_v_attributes dss urls layers var_name = .ok out) :
    (entries_len_ok dss.length layers → entries_len_ok dss.length out)
      ∧ ∀ e ∈ layers, e ∈ out := by
  simp only [process_v_attributes] at hok
  split at hok
  · simp at hok
  · rename_i l2 h2
    split at hok
    · simp at hok
    · rename_i l3 h3
      split at hok
      · simp at hok
      · rename_i l4 h4
        simp only [Except.ok.injEq] at hok
        obtain ⟨h2l, h2m⟩ := cond_count_entry_spec hu h2
        obtain ⟨h3l, h3m⟩ := cond_count_entry_spec hu h3
        obtain ⟨h4l, h4m⟩ := cond_count_entry_spec hu h4
        rw [← hok]
        constructor
        · intro hl
          have hl1 : entries_len_ok dss.length
              (layers ++ (v_comp_attrs.map fun pfx =>
                error_var_entry dss urls var_name pfx)) :=
            entries_len_ok_append hl (entries_len_ok_error_vars hu)
          have hl4 := h4l (h3l (h2l hl1))
          have hl5 : entries_len_ok dss.length
              (if (l4.lookup DataVars.FLAG_STABLE_SHIFT).isNone
                  && head_in_ds dss var_name then
                l4 ++ [(DataVars.FLAG_STABLE_SHIFT,
                  .record ((dss.zip urls).map fun p =>
                    get_data_var_attr p.1 var_name DataVars.FLAG_STABLE_SHIFT (.num 0)))]
              else l4) := by
            split
            · exact entries_len_ok_append hl4
                (entries_len_ok_one (Or.inr (recordLen_zip_map _ hu)))
            · exact hl4
          refine entries_len_ok_append hl5 ?_
          intro p hp
          simp only [List.mem_cons, List.mem_singleton, List.not_mem_nil, or_false] at hp
          rcases hp with hp | hp | hp <;> rw [hp] <;>
            exact Or.inr (shift_var_entry_len hu)
        · intro e he
          have he4 := h4m _ (h3m _ (h2m _ (List.mem_append_left _ he)))
          refine List.mem_append_left _ ?_
          split
          · exact List.mem_append_left _ he4
          · exact he4

theorem ipi_entries_len {dss : List DSModel} {urls : List Int} :
    ∀ {names : List String} {out : Entries},
      urls.length = dss.length →
      mapME (fun name =>
          match mapME (fun p => get_data_var_attr_req p.1 p.2
              DataVars.ImgPairInfo.NAME name) (dss.zip urls) with
          | .error e => Except.error e
          | .ok vals => Except.ok (name, CubeVar.record vals)) names = .ok out →
      entries_len_ok dss.length out := by
  intro names
  induction names with
  | nil =>
      intro out _ hok
      simp only [mapME, Except.ok.injEq] at hok
      rw [← hok]
      intro p hp
      simp at hp
  | cons nm names ih =>
      intro out hu hok
      simp only [mapME] at hok
      cases hveq : mapME (fun p => get_data_var_attr_req p.1 p.2
          DataVars.ImgPairInfo.NAME nm) (dss.zip urls) with
      | error e =>
          rw [hveq] at hok
          simp at hok
      | ok vals =>
          rw [hveq] at hok
          cases hrest : mapME (fun name =>
              match mapME (fun p => get_data_var_attr_req p.1 p.2
                  DataVars.ImgPairInfo.NAME name) (dss.zip urls) with
              | .error e => Except.error e
              | .ok vals => Except.ok (name, CubeVar.record vals)) names with
          | error e =>
              rw [hrest] at hok
              simp at hok
          | ok rest =>
              rw [hrest] at hok
              simp only [Except.ok.injEq] at hok
              rw [← hok]
              intro p hp
              rcases List.mem_cons.1 hp with hp | hp
              · rw [hp]
                exact Or.inr (by simp [recordLen, mapME_length hveq, List.length_zip, hu])
              · exact ih hu hrest p hp

theorem acq_entry_len {dss : List DSModel} {urls : List Int}
    {new_name old_name : String} {p : String × CubeVar}
    (hu : urls.length = dss.length)
    (hok : acq_entry dss urls new_name old_name = .ok p) :
    recordLen p.2 = some dss.length := by
  unfold acq_entry at hok
  split at hok
  · simp at hok
  · rename_i vals hveq
    simp only [Except.ok.injEq] at hok
    rw [← hok]
    simp [recordLen, mapME_length hveq, List.length_zip, hu]

/-- Specification of the schema-unification phase: on success, the combined
dataset's `mid_date` coordinate is the accumulator's date list, every
record-axis variable has record-axis length equal to the batch size, and every
optional spatial variable is present, built from `get_data_var` (placeholder
for the records lacking it). -/
theorem combine_vars_spec {cfg : CubeConfig} {first : Bool} {dates : List (Option Int)}
    {dss : List DSModel} {urls : List Int} {b : CubeDataset}
    (hu : urls.length = dss.length)
    (hok : combine_vars cfg first dates dss urls = .ok b) :
    b.mid_date = dates ∧ entries_len_ok dss.length b.vars
      ∧ ∀ name ∈ optional_spatial_vars,
          (name, CubeVar.spatial (dss.map fun ds => get_data_var cfg ds name)) ∈ b.vars := by
  simp only [combine_vars] at hok
  split at hok
  · simp at hok
  · rename_i l1 h1
    have hl0 : entries_len_ok dss.length
        [(DataVars.URL, CubeVar.record (urls.map AttrVal.num))] :=
      entries_len_ok_one (Or.inr (by simp [recordLen, hu]))
    have hl1 : entries_len_ok dss.length l1 := by
      split at h1
      · split at h1
        · simp at h1
        · split at h1
          · simp only [Except.ok.injEq] at h1
            rw [← h1]
            exact entries_len_ok_append hl0 (entries_len_ok_one (Or.inl rfl))
          · simp at h1
      · simp only [Except.ok.injEq] at h1
        rw [← h1]
        exact hl0
    split at hok
    · simp at hok
    · split at hok
      · simp at hok
      · rename_i l6 h6
        have hs6 := process_v_attributes_spec hu h6
        have hlen6 : entries_len_ok dss.length l6 := by
          refine hs6.1 (entries_len_ok_append (entries_len_ok_append ?_
            (entries_len_ok_one (Or.inr (by simp [recordLen]))))
            (entries_len_ok_one (Or.inr (by simp [recordLen]))))
          split
          · exact entries_len_ok_append
              (entries_len_ok_append hl1 (entries_len_ok_one (Or.inr (by simp [recordLen]))))
              (entries_len_ok_one (Or.inr (recordLen_zip_map _ hu)))
          · exact entries_len_ok_append hl1
              (entries_len_ok_one (Or.inr (by simp [recordLen])))
        have hmVE6 : (DataVars.V_ERROR, CubeVar.spatial
            (dss.map fun ds => get_data_var cfg ds DataVars.V_ERROR)) ∈ l6 :=
          hs6.2 _ (List.mem_append_left _ (List.mem_append_right _
            (List.mem_singleton.2 rfl)))
        split at hok
        · simp at hok
        · rename_i l8 h8
          have hs8 := process_v_attributes_spec hu h8
          have hlen8 : entries_len_ok dss.length l8 :=
            hs8.1 (entries_len_ok_append hlen6
              (entries_len_ok_one (Or.inr (by simp [recordLen]))))
          have hmVE8 := hs8.2 _ (List.mem_append_left _ hmVE6)
          split at hok
          · simp at hok
          · rename_i l10 h10
            have hs10 := process_v_attributes_spec hu h10
            have hlen10 : entries_len_ok dss.length l10 :=
              hs10.1 (entries_len_ok_append hlen8
                (entries_len_ok_one (Or.inr (by simp [recordLen]))))
            have hmVE10 := hs10.2 _ (List.mem_append_left _ hmVE8)
            have hmVA10 : (DataVars.VA, CubeVar.spatial
                (dss.map fun ds => get_data_var cfg ds DataVars.VA)) ∈ l10 :=
              hs10.2 _ (List.mem_append_right _ (List.mem_singleton.2 rfl))
            split at hok
            · simp at hok
            · rename_i l12 h12
              have hs12 := process_v_attributes_spec hu h12
              have hlen12 : entries_len_ok dss.length l12 :=
                hs12.1 (entries_len_ok_append hlen10
                  (entries_len_ok_one (Or.inr (by simp [recordLen]))))
              have hmVE12 := hs12.2 _ (List.mem_append_left _ hmVE10)
              have hmVA12 := hs12.2 _ (List.mem_append_left _ hmVA10)
              have hmVR12 : (DataVars.VR, CubeVar.spatial
                  (dss.map fun ds => get_data_var cfg ds DataVars.VR)) ∈ l12 :=
                hs12.2 _ (List.mem_append_right _ (List.mem_singleton.2 rfl))
              split at hok
              · simp at hok
              · rename_i l14 h14
                have hs14 := process_v_attributes_spec hu h14
                have hlen14 : entries_len_ok dss.length l14 :=
                  hs14.1 (entries_len_ok_append hlen12
                    (entries_len_ok_one (Or.inr (by simp [recordLen]))))
                have hmVE14 := hs14.2 _ (List.mem_append_left _ hmVE12)
                have hmVA14 := hs14.2 _ (List.mem_append_left _ hmVA12)
                have hmVR14 := hs14.2 _ (List.mem_append_left _ hmVR12)
                have hmVXP14 : (DataVars.VXP, CubeVar.spatial
                    (dss.map fun ds => get_data_var cfg ds DataVars.VXP)) ∈ l14 :=
                  hs14.2 _ (List.mem_append_right _ (List.mem_singleton.2 rfl))
                split at hok
                · simp at hok
                · rename_i l16 h16
                  have hs16 := process_v_attributes_spec hu h16
                  have hlen16 : entries_len_ok dss.length l16 :=
                    hs16.1 (entries_len_ok_append hlen14
                      (entries_len_ok_one (Or.inr (by simp [recordLen]))))
                  have hmVE16 := hs16.2 _ (List.mem_append_left _ hmVE14)
                  have hmVA16 := hs16.2 _ (List.mem_append_left _ hmVA14)
                  have hmVR16 := hs16.2 _ (List.mem_append_left _ hmVR14)
                  have hmVXP16 := hs16.2 _ (List.mem_append_left _ hmVXP14)
                  have hmVYP16 : (DataVars.VYP, CubeVar.spatial
                      (dss.map fun ds => get_data_var cfg ds DataVars.VYP)) ∈ l16 :=
                    hs16.2 _ (List.mem_append_right _ (List.mem_singleton.2 rfl))
                  split at hok
                  · simp at hok
                  · rename_i ipi hipi
                    split at hok
                    · simp at hok
                    · rename_i ver hver
                      split at hok
                      · simp at hok
                      · rename_i pf hpf
                        split at hok
                        · simp at hok
                        · split at hok
                          · simp at hok
                          · rename_i a1 ha1
                            split at hok
                            · simp at hok
                            · rename_i a2 ha2
                              split at hok
                              · simp at hok
                              · rename_i ts1 hts1
                                split at hok
                                · simp at hok
                                · split at hok
                                  · simp at hok
                                  · rename_i ts2 hts2
                                    split at hok
                                    · simp at hok
                                    · simp only [Except.ok.injEq] at hok
                                      rw [← hok]
                                      refine ⟨rfl, ?_, ?_⟩
                                      · refine entries_len_ok_append
                                          (entries_len_ok_append (entries_len_ok_append
                                            (entries_len_ok_append hlen16 ?_)
                                            (ipi_entries_len hu hipi))
                                            (entries_len_ok_one (Or.inr
                                              (by simp [recordLen, mapME_length hver]))))
                                          ?_
                                        · intro p hp
                                          simp only [List.mem_cons, List.not_mem_nil,
                                            or_false] at hp
                                          rcases hp with hp | hp | hp | hp | hp <;>
                                            rw [hp] <;>
                                            exact Or.inr (by simp [recordLen])
                                        · intro p hp
                                          simp only [List.mem_cons, List.not_mem_nil,
                                            or_false] at hp
                                          rcases hp with hp | hp <;> rw [hp]
                                          · exact Or.inr (acq_entry_len hu ha1)
                                          · exact Or.inr (acq_entry_len hu ha2)
                                      · intro name hname
                                        have hm17 : ∀ q : String × CubeVar, q ∈ l16 →
                                            q ∈ ((((l16 ++
                                              [(DataVars.CHIP_SIZE_HEIGHT,
                                                CubeVar.spatial (dss.map chip_height_source)),
                                               (DataVars.CHIP_SIZE_WIDTH,
                                                CubeVar.spatial (dss.map fun ds =>
                                                  ds.chip_size_width)),
                                               (DataVars.INTERP_MASK,
                                                CubeVar.spatial (dss.map fun ds =>
                                                  ds.interp_mask)),
                                               (DataVars.VP,
                                                CubeVar.spatial (dss.map fun ds =>
                                                  get_data_var cfg ds DataVars.VP)),
                                               (DataVars.VP_ERROR,
                                                CubeVar.spatial (dss.map fun ds =>
                                                  get_data_var cfg ds DataVars.VP_ERROR))])
                                              ++ ipi)
                                              ++ [(DataVars.AUTORIFT_SOFTWARE_VERSION,
                                                    CubeVar.record ver)])
                                              ++ [a1, a2]) := by
                                          intro q hq
                                          exact List.mem_append_left _
                                            (List.mem_append_left _ (List.mem_append_left _
                                              (List.mem_append_left _ hq)))
                                        have hmVP : (DataVars.VP, CubeVar.spatial
                                            (dss.map fun ds =>
                                              get_data_var cfg ds DataVars.VP)) ∈
                                            l16 ++ [(DataVars.CHIP_SIZE_HEIGHT,
                                                CubeVar.spatial (dss.map chip_height_source)),
                                               (DataVars.CHIP_SIZE_WIDTH,
                                                CubeVar.spatial (dss.map fun ds =>
                                                  ds.chip_size_width)),
                                               (DataVars.INTERP_MASK,
                                                CubeVar.spatial (dss.map fun ds =>
                                                  ds.interp_mask)),
                                               (DataVars.VP,
                                                CubeVar.spatial (dss.map fun ds =>
                                                  get_data_var cfg ds DataVars.VP)),
                                               (DataVars.VP_ERROR,
                                                CubeVar.spatial (dss.map fun ds =>
                                                  get_data_var cfg ds DataVars.VP_ERROR))] :=
                                          List.mem_append_right _ (by simp)
                                        have hmVPE : (DataVars.VP_ERROR, CubeVar.spatial
                                            (dss.map fun ds =>
                                              get_data_var cfg ds DataVars.VP_ERROR)) ∈
                                            l16 ++ [(DataVars.CHIP_SIZE_HEIGHT,
                                                CubeVar.spatial (dss.map chip_height_source)),
                                               (DataVars.CHIP_SIZE_WIDTH,
                                                CubeVar.spatial (dss.map fun ds =>
                                                  ds.chip_size_width)),
                                               (DataVars.INTERP_MASK,
                                                CubeVar.spatial (dss.map fun ds =>
                                                  ds.interp_mask)),
                                               (DataVars.VP,
                                                CubeVar.spatial (dss.map fun ds =>
                                                  get_data_var cfg ds DataVars.VP)),
                                               (DataVars.VP_ERROR,
                                                CubeVar.spatial (dss.map fun ds =>
                                                  get_data_var cfg ds DataVars.VP_ERROR))] :=
                                          List.mem_append_right _ (by simp)
                                        simp only [optional_spatial_vars, List.mem_cons,
                                          List.not_mem_nil, or_false] at hname
                                        rcases hname with rfl | rfl | rfl | rfl | rfl
                                          | rfl | rfl
                                        · exact hm17 _ hmVE16
                                        · exact hm17 _ hmVA16
                                        · exact hm17 _ hmVR16
                                        · exact hm17 _ hmVXP16
                                        · exact hm17 _ hmVYP16
                                        · exact List.mem_append_left _
                                            (List.mem_append_left _
                                              (List.mem_append_left _ hmVP))
                                        · exact List.mem_append_left _
                                            (List.mem_append_left _
                                              (List.mem_append_left _ hmVPE))

/-! ## Run-level record accounting (C1) -/

theorem combine_layers_st_spec {cfg : CubeConfig} {st : CubeState} {store : Store}
    {first : Bool} {st2 : CubeState} {store2 : Store}
    (hl : lens_ok st) (hs : store_ok store)
    (hok : combine_layers_st cfg st store first = .ok (st2, store2)) :
    lens_ok st2 ∧ store_ok store2
      ∧ store_total store2 + st2.dss.length = store_total store + st.dss.length
      ∧ (st.dss.isEmpty = false → st2.dss = []) := by
  unfold combine_layers_st at hok
  split at hok
  · rename_i hemp
    simp only [Except.ok.injEq, Prod.mk.injEq] at hok
    obtain ⟨h1, h2⟩ := hok
    rw [← h1, ← h2]
    refine ⟨hl, hs, rfl, ?_⟩
    intro hcontra
    rw [hemp] at hcontra
    simp at hcontra
  · split at hok
    · simp at hok
    · rename_i b hcv
      simp only [Except.ok.injEq, Prod.mk.injEq] at hok
      obtain ⟨h1, h2⟩ := hok
      rw [← h1, ← h2]
      obtain ⟨hmid, hlen, _⟩ := combine_vars_spec hl.2 hcv
      refine ⟨⟨rfl, rfl⟩, ?_, ?_, fun _ => rfl⟩
      · intro e he
        rcases List.mem_append.1 he with he | he
        · exact hs e he
        · simp only [List.mem_singleton] at he
          rw [he]
          show entries_len_ok b.mid_date.length b.vars
          rw [hmid, hl.1]
          exact hlen
      · show store_total (store ++ [(first, b)]) + (clear_vars _).dss.length
          = store_total store + st.dss.length
        simp [store_total, clear_vars, hmid, hl.1]

theorem accepted_count_cons (r : PreprocessResult) (l : List PreprocessResult) :
    accepted_count (r :: l) = (if r.data.isSome then 1 else 0) + accepted_count l := by
  by_cases h : r.data.isSome
  · simp [accepted_count, List.filter_cons, h, Nat.add_comm]
  · simp [accepted_count, List.filter_cons, h]

theorem add_layer_lens {st : CubeState} {r : PreprocessResult} (hl : lens_ok st) :
    lens_ok (add_layer st r)
      ∧ (add_layer st r).dss.length
          = st.dss.length + (if r.data.isSome then 1 else 0) := by
  cases hd : r.data with
  | some d => simp [add_layer, hd, lens_ok, hl.1, hl.2]
  | none =>
      by_cases he : r.is_empty <;>
        simp [add_layer, hd, he, lens_ok, hl.1, hl.2]

theorem create_loop_spec {cfg : CubeConfig} {batch_size : Nat} :
    ∀ {rem : List PreprocessResult} {first : Bool} {st : CubeState} {store : Store}
      {out : Store × CubeState × Bool},
      lens_ok st → store_ok store →
      create_loop cfg batch_size rem first st store = .ok out →
      lens_ok out.2.1 ∧ store_ok out.1
        ∧ store_total out.1 + out.2.1.dss.length
            = store_total store + st.dss.length + accepted_count rem := by
  intro rem
  induction rem with
  | nil =>
      intro first st store out hl hs hok
      simp only [create_loop, Except.ok.injEq] at hok
      rw [← hok]
      exact ⟨hl, hs, by simp [accepted_count]⟩
  | cons r rest ih =>
      intro first st store out hl hs hok
      simp only [create_loop] at hok
      obtain ⟨hl1, hc1⟩ := @add_layer_lens st r hl
      split at hok
      · split at hok
        · simp at hok
        · rename_i st2 store2 hcmb
          obtain ⟨hl2, hs2, htot, _⟩ := combine_layers_st_spec hl1 hs hcmb
          have hr := ih hl2 hs2 hok
          refine ⟨hr.1, hr.2.1, ?_⟩
          rw [hr.2.2, accepted_count_cons]
          omega
      · have hr := ih hl1 hs hok
        refine ⟨hr.1, hr.2.1, ?_⟩
        rw [hr.2.2, accepted_count_cons]
        omega

/-- C1: every record-axis variable of a combined batch has record-axis length
equal to the number of accepted records handed to the assembler in that batch
(the length of the accumulator's sequences), and across a whole sequential run
every persisted batch satisfies this while the total persisted record-axis
length equals the number of accepted (non-rejected) results of the run. -/
theorem C1_record_axis_lengths (cfg : CubeConfig) (batch_size : Nat)
    (results : List PreprocessResult)
    (hok : (create_model cfg batch_size results).isOk = true) :
    (∀ (first : Bool) (dates : List (Option Int)) (dss : List DSModel)
        (urls : List Int) (b : CubeDataset),
        urls.length = dss.length → dates.length = dss.length →
        combine_vars cfg first dates dss urls = .ok b →
        b.mid_date.length = dss.length
          ∧ ∀ p ∈ b.vars, recordLen p.2 = none ∨ recordLen p.2 = some dss.length)
    ∧ (∀ e ∈ run_store (create_model cfg batch_size results),
        ∀ p ∈ e.2.vars, recordLen p.2 = none ∨ recordLen p.2 = some e.2.mid_date.length)
    ∧ store_total (run_store (create_model cfg batch_size results))
        = accepted_count results := by
  have hmain : ∃ storeF stF, create_model cfg batch_size results = .ok (storeF, stF)
      ∧ store_ok storeF ∧ store_total storeF = accepted_count results := by
    cases hcl : create_loop cfg batch_size results true init_cube_state [] with
    | error e =>
        exfalso
        have herr : create_model cfg batch_size results = .error e := by
          unfold create_model
          rw [hcl]
        rw [herr] at hok
        simp [Except.isOk, Except.toBool] at hok
    | ok trip =>
        obtain ⟨store, st, first⟩ := trip
        have hredg : create_model cfg batch_size results
            = if st.urls.length ≠ 0 then
                match combine_layers_st cfg st store first with
                | .error e => Except.error e
                | .ok (st2, store2) => Except.ok (store2, st2)
              else Except.ok (store, st) := by
          unfold create_model
          rw [hcl]
        have hspec := create_loop_spec (⟨rfl, rfl⟩ : lens_ok init_cube_state)
          (fun e he => absurd he (List.not_mem_nil e)) hcl
        have hacc : store_total store + st.dss.length = accepted_count results := by
          have := hspec.2.2
          simpa [store_total, init_cube_state] using this
        by_cases hurl : st.urls.length ≠ 0
        · rw [if_pos hurl] at hredg
          cases hcmb : combine_layers_st cfg st store first with
          | error e =>
              rw [hcmb] at hredg
              rw [hredg] at hok
              simp [Except.isOk, Except.toBool] at hok
          | ok p =>
              obtain ⟨st2, store2⟩ := p
              rw [hcmb] at hredg
              have h4 := combine_layers_st_spec hspec.1 hspec.2.1 hcmb
              have hdss : st.dss.isEmpty = false := by
                have hne : st.dss.length ≠ 0 := by
                  rw [← hspec.1.2]
                  exact hurl
                cases hd : st.dss with
                | nil => rw [hd] at hne; simp at hne
                | cons a l => rfl
              have hempty := h4.2.2.2 hdss
              refine ⟨store2, st2, hredg, h4.2.1, ?_⟩
              have heq := h4.2.2.1
              rw [hempty] at heq
              simp at heq
              rw [heq]
              exact hacc
        · rw [if_neg hurl] at hredg
          have hz : st.urls.length = 0 := by omega
          have hdz : st.dss.length = 0 := by
            rw [← hspec.1.2]
            exact hz
          refine ⟨store, st, hredg, hspec.2.1, ?_⟩
          omega
  obtain ⟨storeF, stF, heq, hsF, htF⟩ := hmain
  refine ⟨?_, ?_, ?_⟩
  · intro first dates dss urls b hu hd hcv
    obtain ⟨hmid, hlen, _⟩ := combine_vars_spec hu hcv
    exact ⟨by rw [hmid, hd], hlen⟩
  · rw [heq]
    intro e he p hp
    exact hsF e he p hp
  · rw [heq]
    exact htF

/-- Witness for C1: a three-result run (two accepted, one rejected) with batch
size 1. -/
theorem C1_record_axis_lengths_witness :
    (∀ (first : Bool) (dates : List (Option Int)) (dss : List DSModel)
        (urls : List Int) (b : CubeDataset),
        urls.length = dss.length → dates.length = dss.length →
        combine_vars cfg_w first dates dss urls = .ok b →
        b.mid_date.length = dss.length
          ∧ ∀ p ∈ b.vars, recordLen p.2 = none ∨ recordLen p.2 = some dss.length)
    ∧ (∀ e ∈ run_store (create_model cfg_w 1 [res_accept, res_empty, res_accept_no_opt]),
        ∀ p ∈ e.2.vars, recordLen p.2 = none ∨ recordLen p.2 = some e.2.mid_date.length)
    ∧ store_total (run_store (create_model cfg_w 1 [res_accept, res_empty, res_accept_no_opt]))
        = accepted_count [res_accept, res_empty, res_accept_no_opt] :=
  C1_record_axis_lengths cfg_w 1 [res_accept, res_empty, res_accept_no_opt] (by decide)

/-! ## C7: schema unification of the optional spatial variables -/

/-- The `np.empty`-with-NaN placeholder of `get_data_var` is fully missing. -/
theorem all_missing_empty_grid (cfg : CubeConfig) : all_missing (empty_grid cfg) = true := by
  simp only [all_missing, empty_grid, List.all_eq_true]
  intro row hrow
  rw [List.eq_of_mem_replicate hrow]
  intro c hc
  rw [List.eq_of_mem_replicate hc]
  rfl

/-- `get_data_var` on a granule lacking the variable is the placeholder. -/
theorem get_data_var_of_none {cfg : CubeConfig} {ds : DSModel} {name : String}
    (h : ds.opt_vars.lookup name = none) :
    get_data_var cfg ds name = empty_grid cfg := by
  simp [get_data_var, h]

/-- `get_data_var` on a granule carrying the variable is the granule's grid. -/
theorem get_data_var_of_some {cfg : CubeConfig} {ds : DSModel} {name : String}
    {g : Grid} (h : ds.opt_vars.lookup name = some g) :
    get_data_var cfg ds name = g := by
  simp [get_data_var, h]

/-- C7: when `combine_layers` succeeds on a batch, every optional spatial
variable survives into the combined dataset as one grid per record: a record
carrying the variable contributes its own grid unchanged, a record lacking it
contributes the fully-missing placeholder of the cube grid's spatial shape, and
(whenever carried grids hold at least one value) the concatenated variable is
fully missing at exactly the record positions of the records lacking it. -/
theorem C7_schema_unification (cfg : CubeConfig) (first : Bool)
    (dates : List (Option Int)) (dss : List DSModel) (urls : List Int)
    (b : CubeDataset) (name : String)
    (hname : name ∈ optional_spatial_vars)
    (hu : urls.length = dss.length)
    (hok : combine_vars cfg first dates dss urls = .ok b) :
    ∃ gs : List Grid,
      (name, CubeVar.spatial gs) ∈ b.vars
      ∧ gs.length = dss.length
      ∧ (∀ (i : Nat) (hd : i < dss.length) (hg : i < gs.length),
          (dss[i].opt_vars.lookup name = none →
            gs[i] = empty_grid cfg ∧ all_missing (gs[i]) = true)
          ∧ ∀ g, dss[i].opt_vars.lookup name = some g → gs[i] = g)
      ∧ ((∀ ds ∈ dss, ∀ g, ds.opt_vars.lookup name = some g → all_missing g = false) →
          ∀ (i : Nat) (hd : i < dss.length) (hg : i < gs.length),
            (all_missing (gs[i]) = true ↔ dss[i].opt_vars.lookup name = none)) := by
  obtain ⟨-, -, hmem⟩ := combine_vars_spec hu hok
  refine ⟨dss.map fun ds => get_data_var cfg ds name, hmem name hname, by simp, ?_, ?_⟩
  · intro i hd hg
    simp only [List.getElem_map]
    refine ⟨fun hnone => ?_, fun g hgl => ?_⟩
    · rw [get_data_var_of_none hnone]
      exact ⟨rfl, all_missing_empty_grid cfg⟩
    · exact get_data_var_of_some hgl
  · intro hpres i hd hg
    simp only [List.getElem_map]
    constructor
    · intro hms
      cases hl : dss[i].opt_vars.lookup name with
      | none => rfl
      | some g =>
          have hfal := hpres (dss[i]) (List.getElem_mem hd) g hl
          rw [get_data_var_of_some hl] at hms
          rw [hms] at hfal
          exact absurd hfal (by simp)
    · intro hnone
      rw [get_data_var_of_none hnone]
      exact all_missing_empty_grid cfg

/-- Witness for C7: `v_error` over a two-record batch whose second record lacks
the variable. -/
theorem C7_schema_unification_witness :
    ∃ gs : List Grid,
      (DataVars.V_ERROR, CubeVar.spatial gs)
          ∈ (combined_dataset (combine_vars cfg_w false [some 200032, some 200033]
              [good_ds, good_ds_no_opt] [7, 8])).vars
      ∧ gs.length = [good_ds, good_ds_no_opt].length
      ∧ (∀ (i : Nat) (hd : i < [good_ds, good_ds_no_opt].length) (hg : i < gs.length),
          ([good_ds, good_ds_no_opt][i].opt_vars.lookup DataVars.V_ERROR = none →
            gs[i] = empty_grid cfg_w ∧ all_missing (gs[i]) = true)
          ∧ ∀ g, [good_ds, good_ds_no_opt][i].opt_vars.lookup DataVars.V_ERROR = some g →
              gs[i] = g)
      ∧ ((∀ ds ∈ [good_ds, good_ds_no_opt], ∀ g,
            ds.opt_vars.lookup DataVars.V_ERROR = some g → all_missing g = false) →
          ∀ (i : Nat) (hd : i < [good_ds, good_ds_no_opt].length) (hg : i < gs.length),
            (all_missing (gs[i]) = true
              ↔ [good_ds, good_ds_no_opt][i].opt_vars.lookup DataVars.V_ERROR = none)) :=
  C7_schema_unification cfg_w false [some 200032, some 200033]
    [good_ds, good_ds_no_opt] [7, 8]
    (combined_dataset (combine_vars cfg_w false [some 200032, some 200033]
      [good_ds, good_ds_no_opt] [7, 8]))
    DataVars.V_ERROR (by decide) rfl rfl

end ItsLive

